import Mathlib

/-!
Shallow embedding of the actuarial core of the portxlpy repository
(commvalues.py, presentvalues.py, premium_and_progress_values.py).

Numbers are modelled as rationals; Python float operations become exact
rational operations, and Python exceptions (ZeroDivisionError, KeyError,
IndexError, ValueError) become an explicit error monad `Except Err`.
Excel-style rounding (`_excel_round`, half away from zero) is modelled
with the integer floor function.

The repository imports `constants.py` (rounding precisions `ROUND_LX`,
`ROUND_TX`, `ROUND_DX`, `ROUND_CX`, `ROUND_NX`, `ROUND_MX`, `ROUND_RX`
and `MAX_AGE`) and loads `MortalityTables.xml`; neither file is part of
the sources here, so both are modelled from the spec as parameters of a
context `Ctx` (see its doc comment).
-/

namespace PortXL

/-- Error kinds of the Python code: unsupported mortality table
(ValueError in Act_qx), missing table column (KeyError), age outside a
vector (IndexError), negative end age (ValueError in the vector
builders), and float division by zero (ZeroDivisionError). -/
inductive Err where
  | unsupportedTable
  | columnNotFound
  | ageOutOfRange
  | invalidArgument
  | divisionByZero
deriving DecidableEq

/-- Python float division: `a / b` raises ZeroDivisionError when `b == 0`. -/
def pyDiv (a b : ℚ) : Except Err ℚ :=
  if b = 0 then .error .divisionByZero else .ok (a / b)

/-- The effective position of Python list indexing: a negative index
counts from the end. -/
def pyIdx (xs : List ℚ) (i : ℤ) : ℤ :=
  if i < 0 then (xs.length : ℤ) + i else i

/-- Python list indexing `xs[i]`: a negative index counts from the end,
an index outside `[-len, len)` raises IndexError. -/
def pyIndex (xs : List ℚ) (i : ℤ) : Except Err ℚ :=
  if 0 ≤ pyIdx xs i ∧ pyIdx xs i < (xs.length : ℤ) then .ok (xs.getD (pyIdx xs i).toNat 0)
  else .error .ageOutOfRange

/-- Rounding half away from zero to an integer, as VBA/Excel
`WorksheetFunction.Round` does for 0 digits (emulated in `_excel_round`
with `Decimal` and `ROUND_HALF_UP`). -/
def roundHalfUp (q : ℚ) : ℤ :=
  if 0 ≤ q then ⌊q + 1/2⌋ else -⌊-q + 1/2⌋

/-- The `_excel_round(value, digits)` helper: round half away from zero
at `digits` decimal places. -/
def excelRound (d : ℕ) (v : ℚ) : ℚ :=
  (roundHalfUp (v * 10 ^ d) : ℚ) / 10 ^ d

/-- Model of Python `str.upper` for one character (ASCII letters). -/
def charUpper (c : Char) : Char :=
  if 'a' ≤ c ∧ c ≤ 'z' then Char.ofNat (c.toNat - 32) else c

/-- Model of Python `str.upper` (the identifiers used are ASCII). -/
def pyUpper (s : String) : String :=
  ⟨s.data.map charUpper⟩

/-- Model of Python `str.strip`: drop whitespace from both ends. -/
def pyStrip (s : String) : String :=
  ⟨((s.data.dropWhile Char.isWhitespace).reverse.dropWhile Char.isWhitespace).reverse⟩

/-- Sex normalization used by `Act_qx`: anything whose stripped,
upper-cased form is not `M` becomes `F`. -/
def normSex (Sex : String) : String :=
  if pyUpper (pyStrip Sex) = "M" then "M" else "F"

/-- Modelled from the spec: the repository's `constants.py` (not among
the sources) supplies a configured maximum age `MAX_AGE` and one fixed
rounding precision in decimal places per quantity (`ROUND_LX` …
`ROUND_RX`), and `MortalityTables.xml` (also not among the sources) is
loaded into one dense rate vector per `{TABLEID}_{SEX}` column, here the
map `tables`. -/
structure Ctx where
  MAX_AGE : ℕ
  ROUND_LX : ℕ
  ROUND_TX : ℕ
  ROUND_DX : ℕ
  ROUND_CX : ℕ
  ROUND_NX : ℕ
  ROUND_MX : ℕ
  ROUND_RX : ℕ
  tables : String → Option (List ℚ)

/-- `Act_qx(Age, Sex, TableId, ...)`: normalizes sex and table id, only
`DAV1994_T` and `DAV2008_T` are implemented, looks up the `{TABLE}_{SEX}`
column and reads the rate at `Age`. The `BirthYear`, `RetirementAge` and
`Layer` parameters of the Python function are ignored by its body, so
they are omitted here. -/
def Act_qx (ctx : Ctx) (Age : ℤ) (Sex TableId : String) : Except Err ℚ :=
  let sex := normSex Sex
  let table_id := pyUpper (pyStrip TableId)
  if table_id = "DAV1994_T" ∨ table_id = "DAV2008_T" then
    match ctx.tables (table_id ++ "_" ++ sex) with
    | none => .error .columnNotFound
    | some vec =>
      if Age < 0 ∨ (vec.length : ℤ) ≤ Age then .error .ageOutOfRange
      else .ok (vec.getD Age.toNat 0)
  else .error .unsupportedTable

/-- Builds the list `[f 0, …, f (n-1)]`, evaluating `f` in increasing
order and propagating the first error, as a Python for-loop does. -/
def buildList {α : Type} (f : ℕ → Except Err α) : ℕ → Except Err (List α)
  | 0 => pure []
  | n + 1 => do
    let xs ← buildList f n
    let x ← f n
    pure (xs ++ [x])

/-- The `EndAge` convention of the vector builders: `-1` means the
configured maximum age. -/
def limitOf (ctx : Ctx) (EndAge : ℤ) : ℤ :=
  if EndAge = -1 then (ctx.MAX_AGE : ℤ) else EndAge

/-- The i-th entry of the `lx` vector: `vec[0] = 1_000_000`,
`vec[i] = round(vec[i-1] * (1 - qx(i-1)), ROUND_LX)`. -/
def lxVal (ctx : Ctx) (Sex TableId : String) : ℕ → Except Err ℚ
  | 0 => pure 1000000
  | i + 1 => do
    let prev ← lxVal ctx Sex TableId i
    let q ← Act_qx ctx (i : ℤ) Sex TableId
    pure (excelRound ctx.ROUND_LX (prev * (1 - q)))

/-- `Vec_lx(EndAge, ...)`: survivorship vector up to `limit`, raising
ValueError for a negative limit. -/
def Vec_lx (ctx : Ctx) (EndAge : ℤ) (Sex TableId : String) : Except Err (List ℚ) :=
  let limit := limitOf ctx EndAge
  if limit < 0 then .error .invalidArgument
  else buildList (lxVal ctx Sex TableId) (limit.toNat + 1)

/-- `Act_lx(Age, ...)` = `Vec_lx(Age, ...)[Age]` (Python indexing). -/
def Act_lx (ctx : Ctx) (Age : ℤ) (Sex TableId : String) : Except Err ℚ := do
  let vec ← Vec_lx ctx Age Sex TableId
  pyIndex vec Age

/-- `Vec_tx(EndAge, ...)`: deaths vector. The loop assigns indices
`0 … limit-1` only; index `limit` keeps its initial `0.0`. -/
def Vec_tx (ctx : Ctx) (EndAge : ℤ) (Sex TableId : String) : Except Err (List ℚ) :=
  let limit := limitOf ctx EndAge
  if limit < 0 then .error .invalidArgument
  else do
    let tempLx ← Vec_lx ctx limit Sex TableId
    pure ((List.range (limit.toNat + 1)).map fun idx =>
      if idx < limit.toNat then
        excelRound ctx.ROUND_TX (tempLx.getD idx 0 - tempLx.getD (idx + 1) 0)
      else 0)

/-- `Act_tx(Age, ...)` = `Vec_tx(Age, ...)[Age]` (Python indexing). -/
def Act_tx (ctx : Ctx) (Age : ℤ) (Sex TableId : String) : Except Err ℚ := do
  let vec ← Vec_tx ctx Age Sex TableId
  pyIndex vec Age

/-- `Vec_Dx(EndAge, ..., InterestRate, ...)`: discounted survivorship,
`vec[i] = round(lx[i] * v^i, ROUND_DX)` with `v = 1/(1+InterestRate)`. -/
def Vec_Dx (ctx : Ctx) (EndAge : ℤ) (Sex TableId : String) (InterestRate : ℚ) :
    Except Err (List ℚ) :=
  let limit := limitOf ctx EndAge
  if limit < 0 then .error .invalidArgument
  else do
    let v ← pyDiv 1 (1 + InterestRate)
    let tempLx ← Vec_lx ctx limit Sex TableId
    pure ((List.range (limit.toNat + 1)).map fun idx =>
      excelRound ctx.ROUND_DX (tempLx.getD idx 0 * v ^ idx))

/-- Value part of `Act_Dx` (the caching wrapper is `Act_Dx_c` below):
`Vec_Dx(Age, ...)[Age]`. -/
def Act_Dx (ctx : Ctx) (Age : ℤ) (Sex TableId : String) (InterestRate : ℚ) :
    Except Err ℚ := do
  let vec ← Vec_Dx ctx Age Sex TableId InterestRate
  pyIndex vec Age

/-- `Vec_Cx(EndAge, ...)`: `vec[i] = round(tx[i] * v^(i+1), ROUND_CX)`
for `i < limit`; index `limit` keeps its initial `0.0`. -/
def Vec_Cx (ctx : Ctx) (EndAge : ℤ) (Sex TableId : String) (InterestRate : ℚ) :
    Except Err (List ℚ) :=
  let limit := limitOf ctx EndAge
  if limit < 0 then .error .invalidArgument
  else do
    let v ← pyDiv 1 (1 + InterestRate)
    let tempTx ← Vec_tx ctx limit Sex TableId
    pure ((List.range (limit.toNat + 1)).map fun idx =>
      if idx < limit.toNat then
        excelRound ctx.ROUND_CX (tempTx.getD idx 0 * v ^ (idx + 1))
      else 0)

/-- Value part of `Act_Cx`: `Vec_Cx(Age, ...)[Age]`. -/
def Act_Cx (ctx : Ctx) (Age : ℤ) (Sex TableId : String) (InterestRate : ℚ) :
    Except Err ℚ := do
  let vec ← Vec_Cx ctx Age Sex TableId InterestRate
  pyIndex vec Age

/-- Backward recurrence shared by `Vec_Nx`, `Vec_Mx`, `Vec_Rx`:
`backAux d src MAX j` is the vector entry at index `MAX - j`, so
`backAux d src MAX 0 = src[MAX]` and going down one index adds the
source entry and rounds at `d` places. -/
def backAux (d : ℕ) (src : List ℚ) (MAX : ℕ) : ℕ → ℚ
  | 0 => src.getD MAX 0
  | j + 1 => excelRound d (backAux d src MAX j + src.getD (MAX - (j + 1)) 0)

/-- The full backward-recurrence vector `[v 0, …, v MAX]`. -/
def backwardVec (d : ℕ) (src : List ℚ) (MAX : ℕ) : List ℚ :=
  (List.range (MAX + 1)).map fun idx => backAux d src MAX (MAX - idx)

/-- `Vec_Nx(...)`: built over the full age range from `Vec_Dx(-1, ...)`;
the rounding after each addition uses `ROUND_DX` (the source comment
says "kept as in original"), not `ROUND_NX`. -/
def Vec_Nx (ctx : Ctx) (Sex TableId : String) (InterestRate : ℚ) :
    Except Err (List ℚ) := do
  let tempDx ← Vec_Dx ctx (-1) Sex TableId InterestRate
  pure (backwardVec ctx.ROUND_DX tempDx ctx.MAX_AGE)

/-- The `Nx` recurrence as the spec words it, for comparison with
`Vec_Nx`: identical except that the rounding uses `ROUND_NX`,
the precision the spec assigns to `Nx` itself. -/
def Vec_Nx_specRounding (ctx : Ctx) (Sex TableId : String) (InterestRate : ℚ) :
    Except Err (List ℚ) := do
  let tempDx ← Vec_Dx ctx (-1) Sex TableId InterestRate
  pure (backwardVec ctx.ROUND_NX tempDx ctx.MAX_AGE)

/-- Value part of `Act_Nx`: `Vec_Nx(...)[Age]`. -/
def Act_Nx (ctx : Ctx) (Age : ℤ) (Sex TableId : String) (InterestRate : ℚ) :
    Except Err ℚ := do
  let vec ← Vec_Nx ctx Sex TableId InterestRate
  pyIndex vec Age

/-- `Vec_Mx(...)`: backward recurrence over `Vec_Cx(-1, ...)` with
`ROUND_MX`. -/
def Vec_Mx (ctx : Ctx) (Sex TableId : String) (InterestRate : ℚ) :
    Except Err (List ℚ) := do
  let tempCx ← Vec_Cx ctx (-1) Sex TableId InterestRate
  pure (backwardVec ctx.ROUND_MX tempCx ctx.MAX_AGE)

/-- Value part of `Act_Mx`: `Vec_Mx(...)[Age]`. -/
def Act_Mx (ctx : Ctx) (Age : ℤ) (Sex TableId : String) (InterestRate : ℚ) :
    Except Err ℚ := do
  let vec ← Vec_Mx ctx Sex TableId InterestRate
  pyIndex vec Age

/-- `Vec_Rx(...)`: backward recurrence over `Vec_Mx(...)` with
`ROUND_RX`. -/
def Vec_Rx (ctx : Ctx) (Sex TableId : String) (InterestRate : ℚ) :
    Except Err (List ℚ) := do
  let tempMx ← Vec_Mx ctx Sex TableId InterestRate
  pure (backwardVec ctx.ROUND_RX tempMx ctx.MAX_AGE)

/-- Value part of `Act_Rx`: `Vec_Rx(...)[Age]`. -/
def Act_Rx (ctx : Ctx) (Age : ℤ) (Sex TableId : String) (InterestRate : ℚ) :
    Except Err ℚ := do
  let vec ← Vec_Rx ctx Sex TableId InterestRate
  pyIndex vec Age

/-- `BuildCacheKey` joins the quantity kind and all call parameters.
The Python function produces the underscore-joined string
`f"{Kind}_{Age}_{Sex}_{TableId}_{InterestRate}_{BirthYear}_{RetirementAge}_{Layer}"`;
we model the key as the tuple of those parameters, which distinguishes
exactly the same calls for the arguments the program uses. -/
structure CacheKey where
  kind : String
  age : ℤ
  sex : String
  tableId : String
  interestRate : ℚ
  birthYear : ℤ
  retirementAge : ℤ
  layer : ℤ
deriving DecidableEq

/-- Builds the composite cache key from all parameters. -/
def BuildCacheKey (Kind : String) (Age : ℤ) (Sex TableId : String)
    (InterestRate : ℚ) (BirthYear RetirementAge Layer : ℤ) : CacheKey :=
  ⟨Kind, Age, Sex, TableId, InterestRate, BirthYear, RetirementAge, Layer⟩

/-- The process-wide cache: an association list of key/value pairs. -/
abbrev PCache : Type := List (CacheKey × ℚ)

/-- Dictionary lookup in the cache. -/
def cacheLookup (c : PCache) (k : CacheKey) : Option ℚ :=
  (List.find? (fun e => decide (e.1 = k)) c).map (fun e => e.2)

/-- The common shape of the memoized accessors: return the cached value
when the key is present (without invoking the builder), else run the
builder, store the value under the key and return it. The boolean
records whether the builder was invoked. -/
def memoCall (cache : PCache) (key : CacheKey) (compute : Except Err ℚ) :
    Except Err (ℚ × PCache × Bool) :=
  match cacheLookup cache key with
  | some v => .ok (v, cache, false)
  | none => do
    let value ← compute
    pure (value, ((key, value) :: cache : PCache), true)

/-- `Act_Dx(...)` with its caching, cache state passed explicitly. -/
def Act_Dx_c (ctx : Ctx) (cache : PCache) (Age : ℤ) (Sex TableId : String)
    (InterestRate : ℚ) (BirthYear RetirementAge Layer : ℤ) :
    Except Err (ℚ × PCache × Bool) :=
  memoCall cache (BuildCacheKey ("Dx") Age Sex TableId InterestRate BirthYear RetirementAge Layer)
    (Act_Dx ctx Age Sex TableId InterestRate)

/-- `Act_Cx(...)` with its caching. -/
def Act_Cx_c (ctx : Ctx) (cache : PCache) (Age : ℤ) (Sex TableId : String)
    (InterestRate : ℚ) (BirthYear RetirementAge Layer : ℤ) :
    Except Err (ℚ × PCache × Bool) :=
  memoCall cache (BuildCacheKey ("Cx") Age Sex TableId InterestRate BirthYear RetirementAge Layer)
    (Act_Cx ctx Age Sex TableId InterestRate)

/-- `Act_Nx(...)` with its caching. -/
def Act_Nx_c (ctx : Ctx) (cache : PCache) (Age : ℤ) (Sex TableId : String)
    (InterestRate : ℚ) (BirthYear RetirementAge Layer : ℤ) :
    Except Err (ℚ × PCache × Bool) :=
  memoCall cache (BuildCacheKey ("Nx") Age Sex TableId InterestRate BirthYear RetirementAge Layer)
    (Act_Nx ctx Age Sex TableId InterestRate)

/-- `Act_Mx(...)` with its caching. -/
def Act_Mx_c (ctx : Ctx) (cache : PCache) (Age : ℤ) (Sex TableId : String)
    (InterestRate : ℚ) (BirthYear RetirementAge Layer : ℤ) :
    Except Err (ℚ × PCache × Bool) :=
  memoCall cache (BuildCacheKey ("Mx") Age Sex TableId InterestRate BirthYear RetirementAge Layer)
    (Act_Mx ctx Age Sex TableId InterestRate)

/-- `Act_Rx(...)` with its caching. -/
def Act_Rx_c (ctx : Ctx) (cache : PCache) (Age : ℤ) (Sex TableId : String)
    (InterestRate : ℚ) (BirthYear RetirementAge Layer : ℤ) :
    Except Err (ℚ × PCache × Bool) :=
  memoCall cache (BuildCacheKey ("Rx") Age Sex TableId InterestRate BirthYear RetirementAge Layer)
    (Act_Rx ctx Age Sex TableId InterestRate)

/-- The running sum of `Act_DeductionTerm`: after `m` loop iterations,
`deduction = Σ_{l=0}^{m-1} (l/k) / (1 + (l/k)*InterestRate)`, each term
a Python float division that raises when its denominator is zero. -/
def dtSum (k : ℤ) (InterestRate : ℚ) : ℕ → Except Err ℚ
  | 0 => pure 0
  | l + 1 => do
    let acc ← dtSum k InterestRate l
    let term ← pyDiv ((l : ℚ) / (k : ℚ)) (1 + ((l : ℚ) / (k : ℚ)) * InterestRate)
    pure (acc + term)

/-- `Act_DeductionTerm(k, InterestRate)`: `0` for `k ≤ 0`, else the loop
sum scaled by `(1 + InterestRate) / k`. -/
def Act_DeductionTerm (k : ℤ) (InterestRate : ℚ) : Except Err ℚ :=
  if 0 < k then do
    let s ← dtSum k InterestRate k.toNat
    pure (s * (1 + InterestRate) / (k : ℚ))
  else pure 0

/-- `Act_ax_k(Age, ..., k)`: `Nx(Age)/Dx(Age) - DeductionTerm(k, i)` for
`k > 0`, else `0`. -/
def Act_ax_k (ctx : Ctx) (Age : ℤ) (Sex TableId : String) (InterestRate : ℚ)
    (k : ℤ) : Except Err ℚ :=
  if 0 < k then do
    let nx ← Act_Nx ctx Age Sex TableId InterestRate
    let dx ← Act_Dx ctx Age Sex TableId InterestRate
    let r ← pyDiv nx dx
    let dt ← Act_DeductionTerm k InterestRate
    pure (r - dt)
  else pure 0

/-- `Act_axn_k(Age, n, ..., k)`: temporary annuity factor
`(Nx(Age) - Nx(Age+n))/Dx(Age) - DeductionTerm(k,i)*(1 - Dx(Age+n)/Dx(Age))`
for `k > 0`, else `0`. -/
def Act_axn_k (ctx : Ctx) (Age n : ℤ) (Sex TableId : String) (InterestRate : ℚ)
    (k : ℤ) : Except Err ℚ :=
  if 0 < k then do
    let dx_age ← Act_Dx ctx Age Sex TableId InterestRate
    let dx_agen ← Act_Dx ctx (Age + n) Sex TableId InterestRate
    let nx_age ← Act_Nx ctx Age Sex TableId InterestRate
    let nx_agen ← Act_Nx ctx (Age + n) Sex TableId InterestRate
    let r1 ← pyDiv (nx_age - nx_agen) dx_age
    let dt ← Act_DeductionTerm k InterestRate
    let r2 ← pyDiv dx_agen dx_age
    pure (r1 - dt * (1 - r2))
  else pure 0

/-- `act_nGrAx(Age, n, ...)`: term insurance factor
`(Mx(Age) - Mx(Age+n)) / Dx(Age)`. -/
def act_nGrAx (ctx : Ctx) (Age n : ℤ) (Sex TableId : String) (InterestRate : ℚ) :
    Except Err ℚ := do
  let mx_age ← Act_Mx ctx Age Sex TableId InterestRate
  let mx_agen ← Act_Mx ctx (Age + n) Sex TableId InterestRate
  let dx ← Act_Dx ctx Age Sex TableId InterestRate
  pyDiv (mx_age - mx_agen) dx

/-- The `PolicyInputs` dataclass. -/
structure PolicyInputs where
  x : ℤ
  sex : String
  n : ℤ
  t : ℤ
  sum_insured : ℚ
  pay_freq : ℤ

/-- The `TariffInputs` dataclass. -/
structure TariffInputs where
  interest_rate : ℚ
  mortality_table : String
  alpha : ℚ
  beta1 : ℚ
  gamma1 : ℚ
  gamma2 : ℚ
  gamma3 : ℚ
  k : ℚ
  modal_surcharge : ℚ

/-- The `Limits` dataclass. -/
structure Limits where
  min_age_flex : ℤ
  min_term_flex : ℤ

/-- The four entries of the premium block returned by
`calc_premium_calculation`. -/
structure PremiumResult where
  NormGrossAnnualPrem : ℚ
  GrossAnnualPrem : ℚ
  GrossModalPrem : ℚ
  Pxt : ℚ

/-- The `_max0` helper: `v if v > 0 else 0`. -/
def max0 (v : ℤ) : ℤ := if 0 < v then v else 0

/-- `calc_premium_calculation(policy, tariff)`, in the source's
evaluation order: the annuity factors and `Dx` values, the normalized
gross annual premium rate, the gross annual premium, the gross modal
premium, and the net premium rate `Pxt`. -/
def calc_premium_calculation (ctx : Ctx) (p : PolicyInputs) (tf : TariffInputs) :
    Except Err PremiumResult := do
  let ax_t ← Act_axn_k ctx p.x p.t p.sex tf.mortality_table tf.interest_rate 1
  let ax_n ← Act_axn_k ctx p.x p.n p.sex tf.mortality_table tf.interest_rate 1
  let dx_x ← Act_Dx ctx p.x p.sex tf.mortality_table tf.interest_rate
  let dx_xn ← Act_Dx ctx (p.x + p.n) p.sex tf.mortality_table tf.interest_rate
  let ngr ← act_nGrAx ctx p.x p.n p.sex tf.mortality_table tf.interest_rate
  let dxRatio ← pyDiv dx_xn dx_x
  let numerator := ngr + dxRatio + tf.gamma1 * ax_t + tf.gamma2 * (ax_n - ax_t)
  let denominator := (1 - tf.beta1) * ax_t - tf.alpha * (p.t : ℚ)
  let norm_gross_annual_prem ← pyDiv numerator denominator
  let gross_annual_prem := p.sum_insured * norm_gross_annual_prem
  let modalF ← pyDiv (1 + tf.modal_surcharge) (p.pay_freq : ℚ)
  let gross_modal_prem := modalF * (gross_annual_prem + tf.k)
  let ngr2 ← act_nGrAx ctx p.x p.n p.sex tf.mortality_table tf.interest_rate
  let dxRatio2 ← pyDiv dx_xn dx_x
  let pxt ← pyDiv (ngr2 + dxRatio2 + (p.t : ℚ) * tf.alpha * norm_gross_annual_prem) ax_t
  pure ⟨norm_gross_annual_prem, gross_annual_prem, gross_modal_prem, pxt⟩

/-- One row of the progression table. -/
structure Row where
  k : ℤ
  Axn : ℚ
  axn : ℚ
  axt : ℚ
  kVx_pp : ℚ
  kDRx_pp : ℚ
  kVx_pu : ℚ
  kVx_MRV : ℚ
  Flex_phase : ℤ
  Surrender_deduction : ℚ
  Surrender_value : ℚ
  SumInsured_pu : ℚ

/-- The `Axn` column of one progression row:
`IF(k<=n, act_nGrAx(x+k, MAX(0,n-k)) + Act_Dx(x+n)/Act_Dx(x+k), 0)`. -/
def rowAxn (ctx : Ctx) (p : PolicyInputs) (tf : TariffInputs) (dx_xn : ℚ) (k : ℕ) :
    Except Err ℚ :=
  if (k : ℤ) ≤ p.n then do
    let dx_xk ← Act_Dx ctx (p.x + (k : ℤ)) p.sex tf.mortality_table tf.interest_rate
    let ngr ← act_nGrAx ctx (p.x + (k : ℤ)) (max0 (p.n - (k : ℤ))) p.sex
      tf.mortality_table tf.interest_rate
    let r ← pyDiv dx_xn dx_xk
    pure (ngr + r)
  else pure (0 : ℚ)

/-- The body of the `calc_progression_values` loop for one `k`, given
the precomputed constants `ax_ratio = axn(x,n)/axn(x,t)`,
`ax_5_at_x = axn(x,5)` and `dx_xn = Dx(x+n)`. -/
def rowCalc (ctx : Ctx) (p : PolicyInputs) (tf : TariffInputs) (lm : Limits)
    (pxt gap ax_ratio ax_5_at_x dx_xn : ℚ) (k : ℕ) : Except Err Row := do
  let Axn ← rowAxn ctx p tf dx_xn k
  let axn ← Act_axn_k ctx (p.x + (k : ℤ)) (max0 (p.n - (k : ℤ))) p.sex
    tf.mortality_table tf.interest_rate 1
  let axt ← Act_axn_k ctx (p.x + (k : ℤ)) (max0 (p.t - (k : ℤ))) p.sex
    tf.mortality_table tf.interest_rate 1
  let kVx_pp := Axn - pxt * axt + tf.gamma2 * (axn - ax_ratio * axt)
  let kDRx_pp := p.sum_insured * kVx_pp
  let kVx_pu := Axn + tf.gamma3 * axn
  let mr_adj_num ← Act_axn_k ctx (p.x + (k : ℤ)) (max0 (5 - (k : ℤ))) p.sex
    tf.mortality_table tf.interest_rate 1
  let mrr ← pyDiv mr_adj_num ax_5_at_x
  let kVx_MRV := kDRx_pp + tf.alpha * (p.t : ℚ) * gap * mrr
  let flex_phase : ℤ :=
    if lm.min_age_flex ≤ p.x + (k : ℤ) ∧ p.n - lm.min_term_flex ≤ (k : ℤ) then 1 else 0
  let surrender_deduction : ℚ :=
    if p.n < (k : ℤ) ∨ flex_phase = 1 then 0
    else min 150 (max 50 ((1 / 100) * (p.sum_insured - kDRx_pp)))
  let surrender_value := max 0 (kVx_MRV - surrender_deduction)
  let suminsured_pu : ℚ :=
    if p.n < (k : ℤ) then 0
    else if (k : ℤ) < p.t then (if kVx_pu ≠ 0 then kVx_MRV / kVx_pu else 0)
    else p.sum_insured
  pure ⟨(k : ℤ), Axn, axn, axt, kVx_pp, kDRx_pp, kVx_pu, kVx_MRV, flex_phase,
    surrender_deduction, surrender_value, suminsured_pu⟩

/-- `calc_progression_values(policy, tariff, limits, pxt=…,
gross_annual_prem=…, max_k=…)`: the precomputed constants (including the
assigned-but-unused `dx_x5 = Act_Dx(x, ...)`, kept because its failure
propagates), then one row per `k = 0 … max_k`. -/
def calc_progression_values (ctx : Ctx) (p : PolicyInputs) (tf : TariffInputs)
    (lm : Limits) (pxt gap : ℚ) (max_k : ℕ) : Except Err (List Row) := do
  let ax_t0 ← Act_axn_k ctx p.x p.t p.sex tf.mortality_table tf.interest_rate 1
  let ax_n0 ← Act_axn_k ctx p.x p.n p.sex tf.mortality_table tf.interest_rate 1
  let ax_ratio ← pyDiv ax_n0 ax_t0
  let _ ← Act_Dx ctx p.x p.sex tf.mortality_table tf.interest_rate
  let ax_5_at_x ← Act_axn_k ctx p.x 5 p.sex tf.mortality_table tf.interest_rate 1
  let dx_xn ← Act_Dx ctx (p.x + p.n) p.sex tf.mortality_table tf.interest_rate
  buildList (rowCalc ctx p tf lm pxt gap ax_ratio ax_5_at_x dx_xn) (max_k + 1)

/-- A rational that is exactly representable at `d` decimal places; the
rounded quantities of the commutation engine always lie on this grid. -/
def isGrid (d : ℕ) (v : ℚ) : Prop := ∃ m : ℤ, v = (m : ℚ) / 10 ^ d

/-- Test fixture: policy aged 0, male, term 1, payment term 1, sum
insured 10000, zero payment frequency (the division-by-zero case). -/
def pT0 : PolicyInputs := ⟨0, "M", 1, 1, 10000, 0⟩

/-- Test fixture: like `pT0` but with payment frequency 1. -/
def pT1 : PolicyInputs := ⟨0, "M", 1, 1, 10000, 1⟩

/-- Test fixture: zero-interest tariff with all loadings zero on table
`DAV1994_T`. -/
def tfT : TariffInputs := ⟨0, "DAV1994_T", 0, 0, 0, 0, 0, 0, 0⟩

/-- Test fixture: policy aged 0, male, term 1, payment term 1, sum
insured 10000, payment frequency 12, used with `ctxW`. -/
def pW : PolicyInputs := ⟨0, "M", 1, 1, 10000, 12⟩

/-- Test fixture: flex-phase limits that never trigger at the test ages
(minimum age 100). -/
def lmW : Limits := ⟨100, 0⟩

/-- Test fixture: a mortality-table map with a single all-zero column
`DAV1994_T_M` of the given length. -/
def zeroTable (len : ℕ) : String → Option (List ℚ) :=
  fun s => if s = "DAV1994_T_M" then some (List.replicate len 0) else none

/-- Test fixture: maximum age 5, all precisions 0, zero mortality. -/
def ctxW : Ctx :=
  { MAX_AGE := 5, ROUND_LX := 0, ROUND_TX := 0, ROUND_DX := 0, ROUND_CX := 0,
    ROUND_NX := 0, ROUND_MX := 0, ROUND_RX := 0, tables := zeroTable 6 }

/-- Test fixture for the `Nx` rounding question: maximum age 1, `Dx`
rounded at 1 decimal place but `ROUND_NX = 0`, and a first-year
mortality rate that makes `lx[1] = 888888.9` end in a nonzero digit. -/
def ctxN : Ctx :=
  { MAX_AGE := 1, ROUND_LX := 1, ROUND_TX := 0, ROUND_DX := 1, ROUND_CX := 1,
    ROUND_NX := 0, ROUND_MX := 1, ROUND_RX := 1,
    tables := fun s => if s = "DAV1994_T_M" then some [1111111 / 10000000] else none }

/-- Test fixture for the `tx` claims: maximum age 1, all precisions 0,
first-year mortality 1/10 so that `lx = [1000000, 900000]`. -/
def ctxT : Ctx :=
  { MAX_AGE := 1, ROUND_LX := 0, ROUND_TX := 0, ROUND_DX := 0, ROUND_CX := 0,
    ROUND_NX := 0, ROUND_MX := 0, ROUND_RX := 0,
    tables := fun s => if s = "DAV1994_T_M" then some [1 / 10] else none }

@[simp]
theorem ok_bind {α β : Type} (a : α) (f : α → Except Err β) :
    (Except.ok a >>= f) = f a := rfl

@[simp]
theorem error_bind {α β : Type} (e : Err) (f : α → Except Err β) :
    ((Except.error e : Except Err α) >>= f) = .error e := rfl

@[simp]
theorem pure_eq_ok {α : Type} (a : α) : (pure a : Except Err α) = .ok a := rfl

theorem intFloor_eq {q : ℚ} {n : ℤ} (h1 : (n : ℚ) ≤ q) (h2 : q < n + 1) : ⌊q⌋ = n :=
  Int.floor_eq_iff.mpr ⟨h1, h2⟩

theorem floor_half : ⌊(1 / 2 : ℚ)⌋ = 0 :=
  intFloor_eq (by norm_num) (by norm_num)

theorem roundHalfUp_intCast (m : ℤ) : roundHalfUp (m : ℚ) = m := by
  unfold roundHalfUp
  by_cases h : (0 : ℚ) ≤ (m : ℚ)
  · rw [if_pos h, add_comm, Int.floor_add_int, floor_half, zero_add]
  · rw [if_neg h]
    have hm : -(m : ℚ) = ((-m : ℤ) : ℚ) := by push_cast; ring
    rw [hm, add_comm, Int.floor_add_int, floor_half, zero_add, neg_neg]

theorem roundHalfUp_mono {x y : ℚ} (h : x ≤ y) : roundHalfUp x ≤ roundHalfUp y := by
  unfold roundHalfUp
  by_cases hx : (0 : ℚ) ≤ x
  · rw [if_pos hx, if_pos (le_trans hx h)]
    exact Int.floor_le_floor (by linarith)
  · rw [if_neg hx]
    by_cases hy : (0 : ℚ) ≤ y
    · rw [if_pos hy]
      have h1 : (0 : ℤ) ≤ ⌊y + 1 / 2⌋ := by
        rw [← floor_half]
        exact Int.floor_le_floor (by linarith)
      have h2 : (0 : ℤ) ≤ ⌊-x + 1 / 2⌋ := by
        rw [← floor_half]
        exact Int.floor_le_floor (by linarith)
      omega
    · rw [if_neg hy]
      have h3 := Int.floor_le_floor (show -y + 1 / 2 ≤ -x + 1 / 2 by linarith)
      omega

theorem roundHalfUp_nonneg {x : ℚ} (h : 0 ≤ x) : 0 ≤ roundHalfUp x := by
  have h0 : roundHalfUp ((0 : ℤ) : ℚ) = 0 := roundHalfUp_intCast 0
  have h1 : roundHalfUp ((0 : ℤ) : ℚ) ≤ roundHalfUp x := roundHalfUp_mono (by simpa using h)
  omega

theorem excelRound_grid (d : ℕ) (m : ℤ) :
    excelRound d ((m : ℚ) / 10 ^ d) = (m : ℚ) / 10 ^ d := by
  unfold excelRound
  have hp : ((10 : ℚ) ^ d) ≠ 0 := by positivity
  rw [div_mul_cancel₀ _ hp, roundHalfUp_intCast]

theorem excelRound_intCast (d : ℕ) (m : ℤ) : excelRound d (m : ℚ) = (m : ℚ) := by
  have h : ((m * 10 ^ d : ℤ) : ℚ) / 10 ^ d = (m : ℚ) := by
    push_cast
    field_simp
  calc excelRound d (m : ℚ) = excelRound d (((m * 10 ^ d : ℤ) : ℚ) / 10 ^ d) := by rw [h]
  _ = (m : ℚ) := by rw [excelRound_grid, h]

theorem excelRound_eval_int (d : ℕ) {v : ℚ} {m : ℤ} (h : v = (m : ℚ)) :
    excelRound d v = v := by rw [h, excelRound_intCast]

theorem excelRound_eval_grid (d : ℕ) {v : ℚ} {m : ℤ} (h : v = (m : ℚ) / 10 ^ d) :
    excelRound d v = v := by rw [h, excelRound_grid]

theorem excelRound_mono (d : ℕ) {x y : ℚ} (h : x ≤ y) :
    excelRound d x ≤ excelRound d y := by
  unfold excelRound
  have hm : roundHalfUp (x * 10 ^ d) ≤ roundHalfUp (y * 10 ^ d) :=
    roundHalfUp_mono (mul_le_mul_of_nonneg_right h (by positivity))
  gcongr


theorem excelRound_nonneg (d : ℕ) {x : ℚ} (h : 0 ≤ x) : 0 ≤ excelRound d x := by
  unfold excelRound
  apply div_nonneg _ (by positivity)
  exact_mod_cast roundHalfUp_nonneg (mul_nonneg h (by positivity))

theorem excelRound_isGrid (d : ℕ) (v : ℚ) : isGrid d (excelRound d v) :=
  ⟨roundHalfUp (v * 10 ^ d), rfl⟩

theorem isGrid_round_eq {d : ℕ} {v : ℚ} (h : isGrid d v) : excelRound d v = v := by
  obtain ⟨m, rfl⟩ := h
  exact excelRound_grid d m

theorem isGrid_intCast (d : ℕ) (m : ℤ) : isGrid d ((m : ℚ)) := by
  refine ⟨m * 10 ^ d, ?_⟩
  push_cast
  field_simp

theorem excelRound_eval (d : ℕ) {v : ℚ} (n : ℤ) (h0 : 0 ≤ v)
    (h1 : (n : ℚ) ≤ v * 10 ^ d + 1 / 2) (h2 : v * 10 ^ d + 1 / 2 < n + 1) :
    excelRound d v = (n : ℚ) / 10 ^ d := by
  unfold excelRound roundHalfUp
  rw [if_pos (mul_nonneg h0 (by positivity)), intFloor_eq h1 h2]

theorem buildList_ok {α : Type} {f : ℕ → Except Err α} :
    ∀ {n : ℕ} {ys : List α}, buildList f n = .ok ys →
      ys.length = n ∧ ∀ i, i < n → ∃ y, f i = .ok y ∧ ys[i]? = some y := by
  intro n
  induction n with
  | zero =>
    intro ys h
    simp only [buildList, pure_eq_ok, Except.ok.injEq] at h
    subst h
    simp
  | succ n ih =>
    intro ys h
    unfold buildList at h
    cases hb : buildList f n with
    | error e => rw [hb] at h; simp at h
    | ok xs =>
      rw [hb] at h
      simp only [ok_bind] at h
      cases hf : f n with
      | error e => rw [hf] at h; simp at h
      | ok x =>
        rw [hf] at h
        simp only [ok_bind, pure_eq_ok, Except.ok.injEq] at h
        subst h
        obtain ⟨hlen, hget⟩ := ih hb
        constructor
        · simp [hlen]
        · intro i hi
          rcases Nat.lt_or_ge i n with hin | hin
          · obtain ⟨y, hy1, hy2⟩ := hget i hin
            refine ⟨y, hy1, ?_⟩
            rw [List.getElem?_append, if_pos (by omega)]
            exact hy2
          · have : i = n := by omega
            subst this
            refine ⟨x, hf, ?_⟩
            rw [show i = xs.length from hlen.symm]
            simp

theorem buildList_ok_mem {α : Type} {f : ℕ → Except Err α} {n : ℕ} {ys : List α}
    (h : buildList f n = .ok ys) : ∀ y ∈ ys, ∃ i, i < n ∧ f i = .ok y := by
  intro y hy
  obtain ⟨hlen, hget⟩ := buildList_ok h
  obtain ⟨i, hiy⟩ := List.mem_iff_getElem?.mp hy
  have hilen : i < ys.length := by
    rcases List.getElem?_eq_some.mp hiy with ⟨hh, _⟩
    exact hh
  have hin : i < n := by omega
  obtain ⟨y0, hf0, hy0⟩ := hget i hin
  have heq : some y = some y0 := by rw [← hiy, hy0]
  cases heq
  exact ⟨i, hin, hf0⟩

theorem bind_ok_inv {α β : Type} {m : Except Err α} {f : α → Except Err β} {b : β}
    (h : (m >>= f) = .ok b) : ∃ a, m = .ok a ∧ f a = .ok b := by
  cases m with
  | error e => simp at h
  | ok a => exact ⟨a, rfl, h⟩

theorem ok_inj {α : Type} {a b : α} (h : (Except.ok a : Except Err α) = .ok b) : a = b := by
  injection h

theorem Vec_lx_ok_inv {ctx : Ctx} {EndAge : ℤ} {Sex TableId : String} {vec : List ℚ}
    (h : Vec_lx ctx EndAge Sex TableId = .ok vec) :
    0 ≤ limitOf ctx EndAge ∧ vec.length = (limitOf ctx EndAge).toNat + 1 ∧
      ∀ i, i < vec.length → lxVal ctx Sex TableId i = .ok (vec.getD i 0) := by
  unfold Vec_lx at h
  by_cases hl : limitOf ctx EndAge < 0
  · rw [if_pos hl] at h
    simp at h
  · rw [if_neg hl] at h
    obtain ⟨hlen, hget⟩ := buildList_ok h
    refine ⟨by omega, hlen, ?_⟩
    intro i hi
    obtain ⟨y, hy1, hy2⟩ := hget i (by omega)
    have hgd : vec.getD i 0 = y := by
      rw [List.getD_eq_getElem?_getD, hy2]
      rfl
    rw [hgd]
    exact hy1

theorem lxVal_succ_inv {ctx : Ctx} {Sex TableId : String} {i : ℕ} {b : ℚ}
    (h : lxVal ctx Sex TableId (i + 1) = .ok b) :
    ∃ prev q, lxVal ctx Sex TableId i = .ok prev ∧
      Act_qx ctx (i : ℤ) Sex TableId = .ok q ∧
      b = excelRound ctx.ROUND_LX (prev * (1 - q)) := by
  unfold lxVal at h
  obtain ⟨prev, hp, h⟩ := bind_ok_inv h
  obtain ⟨q, hqx, h⟩ := bind_ok_inv h
  exact ⟨prev, q, hp, hqx, (ok_inj h).symm⟩

theorem lxVal_nonneg_grid {ctx : Ctx} {Sex TableId : String}
    (hq : ∀ (a : ℤ) (q : ℚ), Act_qx ctx a Sex TableId = .ok q → 0 ≤ q ∧ q ≤ 1) :
    ∀ (i : ℕ) (a : ℚ), lxVal ctx Sex TableId i = .ok a → 0 ≤ a ∧ isGrid ctx.ROUND_LX a := by
  intro i
  induction i with
  | zero =>
    intro a h
    have ha : a = 1000000 := (ok_inj h).symm
    subst ha
    refine ⟨by norm_num, ?_⟩
    have := isGrid_intCast ctx.ROUND_LX 1000000
    simpa using this
  | succ i ih =>
    intro a h
    obtain ⟨prev, q, hp, hqx, rfl⟩ := lxVal_succ_inv h
    obtain ⟨h0, _⟩ := ih prev hp
    obtain ⟨hq0, hq1⟩ := hq (i : ℤ) q hqx
    exact ⟨excelRound_nonneg _ (mul_nonneg h0 (by linarith)), excelRound_isGrid _ _⟩

theorem lxVal_step_le {ctx : Ctx} {Sex TableId : String}
    (hq : ∀ (a : ℤ) (q : ℚ), Act_qx ctx a Sex TableId = .ok q → 0 ≤ q ∧ q ≤ 1)
    {i : ℕ} {a b : ℚ} (ha : lxVal ctx Sex TableId i = .ok a)
    (hb : lxVal ctx Sex TableId (i + 1) = .ok b) : b ≤ a := by
  obtain ⟨prev, q, hp, hqx, rfl⟩ := lxVal_succ_inv hb
  have hpa : prev = a := ok_inj (hp.symm.trans ha)
  subst hpa
  obtain ⟨h0, hg⟩ := lxVal_nonneg_grid hq i prev hp
  obtain ⟨hq0, hq1⟩ := hq (i : ℤ) q hqx
  calc excelRound ctx.ROUND_LX (prev * (1 - q))
      ≤ excelRound ctx.ROUND_LX prev :=
        excelRound_mono _ (mul_le_of_le_one_right h0 (by linarith))
  _ = prev := isGrid_round_eq hg

/-- C4: for every table and sex, assuming every mortality rate returned
by `Act_qx` lies in `[0, 1]`, a successfully built `lx` vector starts at
`1_000_000` and is monotonically non-increasing. -/
theorem claimC4_lx_monotone (ctx : Ctx) (EndAge : ℤ) (Sex TableId : String)
    (vec : List ℚ)
    (hq : ∀ (a : ℤ) (q : ℚ), Act_qx ctx a Sex TableId = .ok q → 0 ≤ q ∧ q ≤ 1)
    (h : Vec_lx ctx EndAge Sex TableId = .ok vec) :
    vec.getD 0 0 = 1000000 ∧
      ∀ i : ℕ, i + 1 < vec.length → vec.getD (i + 1) 0 ≤ vec.getD i 0 := by
  obtain ⟨hl, hlen, hval⟩ := Vec_lx_ok_inv h
  constructor
  · have h0 := hval 0 (by omega)
    exact (ok_inj h0).symm ▸ rfl
  · intro i hi
    exact lxVal_step_le hq (hval i (by omega)) (hval (i + 1) hi)

theorem ctxT_qx (a : ℤ) : Act_qx ctxT a ("M") ("DAV1994_T") =
    if a < 0 ∨ 1 ≤ a then .error .ageOutOfRange else .ok (1 / 10) := by
  have h1 : normSex ("M") = "M" := by decide
  have h2 : pyUpper (pyStrip ("DAV1994_T")) = "DAV1994_T" := by decide
  have h3 : ctxT.tables ("DAV1994_T" ++ "_" ++ "M") = some [1 / 10] := by
    simp [ctxT]
  simp only [Act_qx, h1, h2, h3]
  simp only [true_or, if_true, List.length_singleton, Nat.cast_one]
  by_cases hc : a < 0 ∨ (1 : ℤ) ≤ a
  · rw [if_pos hc, if_pos hc]
  · rw [if_neg hc, if_neg hc]
    have ha : a.toNat = 0 := by omega
    rw [ha]
    norm_num

theorem ctxT_qx_bounds : ∀ (a : ℤ) (q : ℚ),
    Act_qx ctxT a ("M") ("DAV1994_T") = .ok q → 0 ≤ q ∧ q ≤ 1 := by
  intro a q h
  rw [ctxT_qx a] at h
  by_cases hc : a < 0 ∨ (1 : ℤ) ≤ a
  · rw [if_pos hc] at h
    simp at h
  · rw [if_neg hc] at h
    have hq : q = 1 / 10 := (ok_inj h).symm
    subst hq
    norm_num

theorem ctxT_lx0 : lxVal ctxT ("M") ("DAV1994_T") 0 = .ok 1000000 := rfl

theorem ctxT_lx1 : lxVal ctxT ("M") ("DAV1994_T") 1 = .ok 900000 := by
  have hq := ctxT_qx 0
  norm_num at hq
  show lxVal ctxT ("M") ("DAV1994_T") (0 + 1) = .ok 900000
  simp only [lxVal, ctxT_lx0, ok_bind, hq, pure_eq_ok, Nat.cast_zero]
  rw [excelRound_eval_int _ (show ((1000000 : ℚ) * (1 - 1 / 10)) = ((900000 : ℤ) : ℚ) by norm_num)]
  norm_num

theorem ctxT_Vec_lx1 : Vec_lx ctxT 1 ("M") ("DAV1994_T") = .ok [1000000, 900000] := by
  simp only [Vec_lx, limitOf]
  norm_num
  simp only [buildList, ctxT_lx0, ctxT_lx1, ok_bind, pure_eq_ok]
  norm_num

/-- C4 witness: with the single-column table of `ctxT` (rate 1/10 at age
0) the built vector is `[1000000, 900000]`, starting at a million and
non-increasing. -/
theorem claimC4_witness :
    ∃ vec, Vec_lx ctxT 1 ("M") ("DAV1994_T") = .ok vec ∧
      vec.getD 0 0 = 1000000 ∧
      ∀ i : ℕ, i + 1 < vec.length → vec.getD (i + 1) 0 ≤ vec.getD i 0 :=
  ⟨[1000000, 900000], ctxT_Vec_lx1,
    claimC4_lx_monotone ctxT 1 ("M") ("DAV1994_T") [1000000, 900000]
      ctxT_qx_bounds ctxT_Vec_lx1⟩

theorem pyIndex_ok_inv {xs : List ℚ} {i : ℤ} {v : ℚ} (h : pyIndex xs i = .ok v) :
    0 ≤ pyIdx xs i ∧ pyIdx xs i < (xs.length : ℤ) ∧ v = xs.getD (pyIdx xs i).toNat 0 := by
  unfold pyIndex at h
  by_cases hc : 0 ≤ pyIdx xs i ∧ pyIdx xs i < (xs.length : ℤ)
  · rw [if_pos hc] at h
    exact ⟨hc.1, hc.2, (ok_inj h).symm⟩
  · rw [if_neg hc] at h
    simp at h

theorem range_map_getD {f : ℕ → ℚ} {n i : ℕ} (hi : i < n) :
    ((List.range n).map f).getD i 0 = f i := by
  rw [List.getD_eq_getElem?_getD, List.getElem?_map, List.getElem?_range hi]
  rfl

theorem limitOf_idem {ctx : Ctx} {L : ℤ} (h : 0 ≤ L) : limitOf ctx L = L := by
  unfold limitOf
  rw [if_neg (by omega)]

theorem Vec_tx_ok_inv {ctx : Ctx} {EndAge : ℤ} {Sex TableId : String} {txv : List ℚ}
    (h : Vec_tx ctx EndAge Sex TableId = .ok txv) :
    0 ≤ limitOf ctx EndAge ∧ ∃ lxv,
      Vec_lx ctx (limitOf ctx EndAge) Sex TableId = .ok lxv ∧
      txv = (List.range ((limitOf ctx EndAge).toNat + 1)).map (fun idx =>
        if idx < (limitOf ctx EndAge).toNat then
          excelRound ctx.ROUND_TX (lxv.getD idx 0 - lxv.getD (idx + 1) 0)
        else 0) := by
  unfold Vec_tx at h
  by_cases hl : limitOf ctx EndAge < 0
  · rw [if_pos hl] at h
    simp at h
  · rw [if_neg hl] at h
    obtain ⟨lxv, hlx, h2⟩ := bind_ok_inv h
    exact ⟨by omega, lxv, hlx, (ok_inj h2).symm⟩

/-- C3, as it holds on the code: inside the built range (`age + 1 ≤
limit`) the `tx` vector entry is the rounded difference of survivors and
is nonnegative when the rates lie in `[0, 1]`; but the scalar accessor
`Act_tx` reads the one slot the loop never assigns, so every successful
`Act_tx` call returns `0`. -/
theorem claimC3_tx_amended (ctx : Ctx) (Sex TableId : String) :
    (∀ (EndAge : ℤ) (txv lxv : List ℚ) (age : ℕ),
      (∀ (a : ℤ) (q : ℚ), Act_qx ctx a Sex TableId = .ok q → 0 ≤ q ∧ q ≤ 1) →
      Vec_tx ctx EndAge Sex TableId = .ok txv →
      Vec_lx ctx (limitOf ctx EndAge) Sex TableId = .ok lxv →
      age + 1 ≤ (limitOf ctx EndAge).toNat →
      txv.getD age 0 = excelRound ctx.ROUND_TX (lxv.getD age 0 - lxv.getD (age + 1) 0) ∧
        0 ≤ txv.getD age 0) ∧
    (∀ (Age : ℤ) (v : ℚ), Act_tx ctx Age Sex TableId = .ok v → v = 0) := by
  constructor
  · intro EndAge txv lxv age hq htx hlx hage
    obtain ⟨hl, lxv0, hlx0, htxv⟩ := Vec_tx_ok_inv htx
    have hlx_eq : lxv0 = lxv := ok_inj (hlx0.symm.trans hlx)
    subst hlx_eq
    have hentry : txv.getD age 0 =
        excelRound ctx.ROUND_TX (lxv0.getD age 0 - lxv0.getD (age + 1) 0) := by
      rw [htxv, range_map_getD (by omega), if_pos (by omega)]
    refine ⟨hentry, ?_⟩
    rw [hentry]
    obtain ⟨_, hlen, hval⟩ := Vec_lx_ok_inv hlx0
    rw [limitOf_idem hl] at hlen
    have hmono := lxVal_step_le hq (hval age (by omega)) (hval (age + 1) (by omega))
    exact excelRound_nonneg _ (by linarith)
  · intro Age v h
    unfold Act_tx at h
    obtain ⟨txv, htx, hidx⟩ := bind_ok_inv h
    obtain ⟨hl, lxv, hlx, htxv⟩ := Vec_tx_ok_inv htx
    obtain ⟨hj0, hjlen, hv⟩ := pyIndex_ok_inv hidx
    have hlen : txv.length = (limitOf ctx Age).toNat + 1 := by
      rw [htxv, List.length_map, List.length_range]
    have hidxeq : (pyIdx txv Age).toNat = (limitOf ctx Age).toNat := by
      unfold pyIdx at hj0 hjlen ⊢
      by_cases hA : Age < 0
      · have hA1 : Age = -1 := by
          unfold limitOf at hl
          by_cases h1 : Age = -1
          · exact h1
          · rw [if_neg h1] at hl
            omega
        rw [if_pos hA] at hj0 hjlen ⊢
        omega
      · rw [if_neg hA] at hj0 hjlen ⊢
        have hA2 : limitOf ctx Age = Age := by
          unfold limitOf
          rw [if_neg (by omega)]
        omega
    have hfinal : txv.getD ((limitOf ctx Age).toNat) 0 = 0 := by
      rw [htxv, range_map_getD (by omega), if_neg (lt_irrefl _)]
    rw [hv, hidxeq]
    exact hfinal

theorem ctxT_Vec_lx0 : Vec_lx ctxT 0 ("M") ("DAV1994_T") = .ok [1000000] := by
  simp only [Vec_lx, limitOf]
  norm_num
  simp only [buildList, ctxT_lx0, ok_bind, pure_eq_ok]
  norm_num

theorem ctxT_round_tx : excelRound 0 ((1000000 : ℚ) - 900000) = 100000 := by
  rw [excelRound_eval_int _ (show ((1000000 : ℚ) - 900000) = ((100000 : ℤ) : ℚ) by norm_num)]
  norm_num

theorem ctxT_Vec_tx1 : Vec_tx ctxT 1 ("M") ("DAV1994_T") = .ok [100000, 0] := by
  simp only [Vec_tx, limitOf]
  norm_num
  rw [ctxT_Vec_lx1]
  simp only [ok_bind, pure_eq_ok]
  have he : ctxT.ROUND_TX = 0 := rfl
  simp [List.range_succ, he, ctxT_round_tx]

theorem ctxT_Vec_tx0 : Vec_tx ctxT 0 ("M") ("DAV1994_T") = .ok [0] := by
  simp only [Vec_tx, limitOf]
  norm_num
  rw [ctxT_Vec_lx0]
  simp only [ok_bind, pure_eq_ok]

theorem ctxT_Act_tx0 : Act_tx ctxT 0 ("M") ("DAV1994_T") = .ok 0 := by
  unfold Act_tx
  rw [ctxT_Vec_tx0]
  simp only [ok_bind]
  simp [pyIndex, pyIdx]

theorem ctxT_Act_lx0 : Act_lx ctxT 0 ("M") ("DAV1994_T") = .ok 1000000 := by
  unfold Act_lx
  rw [ctxT_Vec_lx0]
  simp only [ok_bind]
  simp [pyIndex, pyIdx]

theorem ctxT_Act_lx1 : Act_lx ctxT 1 ("M") ("DAV1994_T") = .ok 900000 := by
  unfold Act_lx
  rw [ctxT_Vec_lx1]
  simp only [ok_bind]
  simp [pyIndex, pyIdx]

/-- C3 counterexample: with the table of `ctxT`, `Act_lx` gives
`lx[0] = 1000000` and `lx[1] = 900000`, so the claimed value of
`Act_tx(0, ...)` is `round(lx[0] - lx[1]) = 100000`; but `Act_tx`
actually returns `0`. -/
theorem claimC3_cex :
    Act_tx ctxT 0 ("M") ("DAV1994_T") = .ok 0 ∧
    Act_lx ctxT 0 ("M") ("DAV1994_T") = .ok 1000000 ∧
    Act_lx ctxT 1 ("M") ("DAV1994_T") = .ok 900000 ∧
    excelRound ctxT.ROUND_TX ((1000000 : ℚ) - 900000) = 100000 ∧
    (0 : ℚ) ≠ 100000 := by
  refine ⟨ctxT_Act_tx0, ctxT_Act_lx0, ctxT_Act_lx1, ?_, by norm_num⟩
  exact ctxT_round_tx

/-- C3 witness: the amended statement applied to the concrete table of
`ctxT` with `EndAge = 1` and `age = 0`: the vector entry is the rounded
difference `100000` and nonnegative, and the `Act_tx` accessor returns
`0`. -/
theorem claimC3_witness :
    (([100000, 0] : List ℚ).getD 0 0 =
        excelRound ctxT.ROUND_TX (([1000000, 900000] : List ℚ).getD 0 0 -
          ([1000000, 900000] : List ℚ).getD 1 0) ∧
      (0 : ℚ) ≤ ([100000, 0] : List ℚ).getD 0 0) ∧
    ∃ v, Act_tx ctxT 0 ("M") ("DAV1994_T") = .ok v ∧ v = 0 := by
  have hlx : Vec_lx ctxT (limitOf ctxT 1) ("M") ("DAV1994_T") = .ok [1000000, 900000] := by
    rw [limitOf_idem (by norm_num)]
    exact ctxT_Vec_lx1
  constructor
  · exact (claimC3_tx_amended ctxT ("M") ("DAV1994_T")).1 1 [100000, 0] [1000000, 900000] 0
      ctxT_qx_bounds ctxT_Vec_tx1 hlx (by norm_num [limitOf])
  · exact ⟨0, ctxT_Act_tx0,
      (claimC3_tx_amended ctxT ("M") ("DAV1994_T")).2 0 0 ctxT_Act_tx0⟩

theorem backwardVec_getD {d : ℕ} {src : List ℚ} {MAX i : ℕ} (hi : i ≤ MAX) :
    (backwardVec d src MAX).getD i 0 = backAux d src MAX (MAX - i) := by
  unfold backwardVec
  rw [range_map_getD (by omega)]

theorem Vec_Nx_ok_inv {ctx : Ctx} {Sex TableId : String} {InterestRate : ℚ} {nxv : List ℚ}
    (h : Vec_Nx ctx Sex TableId InterestRate = .ok nxv) :
    ∃ dxv, Vec_Dx ctx (-1) Sex TableId InterestRate = .ok dxv ∧
      nxv = backwardVec ctx.ROUND_DX dxv ctx.MAX_AGE := by
  unfold Vec_Nx at h
  obtain ⟨dxv, hd, h2⟩ := bind_ok_inv h
  exact ⟨dxv, hd, (ok_inj h2).symm⟩

/-- C2, as it holds on the code: the `Nx` vector satisfies
`Nx[MAX] = Dx[MAX]` and the backward recurrence
`Nx[i] = round(Nx[i+1] + Dx[i])` with the rounding applied immediately
after each addition — but at the `Dx` precision `ROUND_DX` (the code
keeps `ROUND_DX` here, as its comment notes), not at `Nx`'s own
`ROUND_NX`. -/
theorem claimC2_Nx_recurrence (ctx : Ctx) (Sex TableId : String) (InterestRate : ℚ)
    (dxv nxv : List ℚ)
    (hdx : Vec_Dx ctx (-1) Sex TableId InterestRate = .ok dxv)
    (hnx : Vec_Nx ctx Sex TableId InterestRate = .ok nxv) :
    nxv.getD ctx.MAX_AGE 0 = dxv.getD ctx.MAX_AGE 0 ∧
      ∀ j, j < ctx.MAX_AGE →
        nxv.getD j 0 = excelRound ctx.ROUND_DX (nxv.getD (j + 1) 0 + dxv.getD j 0) := by
  obtain ⟨dxv0, hd0, hb⟩ := Vec_Nx_ok_inv hnx
  have hde : dxv0 = dxv := ok_inj (hd0.symm.trans hdx)
  subst hde
  subst hb
  constructor
  · rw [backwardVec_getD (le_refl _), Nat.sub_self]
    rfl
  · intro j hj
    rw [backwardVec_getD (by omega), backwardVec_getD (by omega)]
    rw [show ctx.MAX_AGE - j = (ctx.MAX_AGE - (j + 1)) + 1 from by omega]
    simp only [backAux]
    rw [show ctx.MAX_AGE - (ctx.MAX_AGE - (j + 1) + 1) = j from by omega]

theorem ctxN_qx (a : ℤ) : Act_qx ctxN a ("M") ("DAV1994_T") =
    if a < 0 ∨ 1 ≤ a then .error .ageOutOfRange else .ok (1111111 / 10000000) := by
  have h1 : normSex ("M") = "M" := by decide
  have h2 : pyUpper (pyStrip ("DAV1994_T")) = "DAV1994_T" := by decide
  have h3 : ctxN.tables ("DAV1994_T" ++ "_" ++ "M") = some [1111111 / 10000000] := by
    simp [ctxN]
  simp only [Act_qx, h1, h2, h3]
  simp only [true_or, if_true, List.length_singleton, Nat.cast_one]
  by_cases hc : a < 0 ∨ (1 : ℤ) ≤ a
  · rw [if_pos hc, if_pos hc]
  · rw [if_neg hc, if_neg hc]
    have ha : a.toNat = 0 := by omega
    rw [ha]
    norm_num

theorem ctxN_lx0 : lxVal ctxN ("M") ("DAV1994_T") 0 = .ok 1000000 := rfl

theorem ctxN_lx1 : lxVal ctxN ("M") ("DAV1994_T") 1 = .ok (8888889 / 10) := by
  have hq := ctxN_qx 0
  norm_num at hq
  show lxVal ctxN ("M") ("DAV1994_T") (0 + 1) = .ok (8888889 / 10)
  simp only [lxVal, ctxN_lx0, ok_bind, hq, pure_eq_ok, Nat.cast_zero]
  rw [show ctxN.ROUND_LX = 1 from rfl]
  rw [excelRound_eval_grid _ (show ((1000000 : ℚ) * (1 - 1111111 / 10000000)) =
    ((8888889 : ℤ) : ℚ) / 10 ^ 1 by norm_num)]
  norm_num

theorem ctxN_Vec_lx1 : Vec_lx ctxN 1 ("M") ("DAV1994_T") = .ok [1000000, 8888889 / 10] := by
  simp only [Vec_lx, limitOf]
  norm_num
  simp only [buildList, ctxN_lx0, ctxN_lx1, ok_bind, pure_eq_ok]
  norm_num

theorem ctxN_Vec_Dx : Vec_Dx ctxN (-1) ("M") ("DAV1994_T") 0 =
    .ok [1000000, 8888889 / 10] := by
  simp only [Vec_Dx, limitOf, if_true]
  rw [show ((ctxN.MAX_AGE : ℤ)) = 1 from rfl]
  norm_num
  have hv : pyDiv (1 : ℚ) 1 = .ok 1 := by
    simp [pyDiv]
  rw [hv]
  simp only [ok_bind]
  rw [ctxN_Vec_lx1]
  simp only [ok_bind, pure_eq_ok]
  rw [show ctxN.ROUND_DX = 1 from rfl]
  have he0 : excelRound 1 (1000000 : ℚ) = 1000000 := by
    rw [excelRound_eval_int _ (show (1000000 : ℚ) = ((1000000 : ℤ) : ℚ) by norm_num)]
  have he1 : excelRound 1 ((8888889 : ℚ) / 10) = 8888889 / 10 := by
    rw [excelRound_eval_grid _ (show ((8888889 : ℚ) / 10) = ((8888889 : ℤ) : ℚ) / 10 ^ 1
      by norm_num)]
  norm_num [List.range_succ, he0, he1]

theorem ctxN_Vec_Nx : Vec_Nx ctxN ("M") ("DAV1994_T") 0 =
    .ok [18888889 / 10, 8888889 / 10] := by
  unfold Vec_Nx
  rw [ctxN_Vec_Dx]
  simp only [ok_bind, pure_eq_ok]
  rw [show ctxN.ROUND_DX = 1 from rfl, show ctxN.MAX_AGE = 1 from rfl]
  have hb0 : backAux 1 [1000000, 8888889 / 10] 1 0 = 8888889 / 10 := rfl
  have hb1 : backAux 1 [1000000, 8888889 / 10] 1 1 = 18888889 / 10 := by
    show excelRound 1 (backAux 1 [1000000, 8888889 / 10] 1 0
      + ([1000000, 8888889 / 10] : List ℚ).getD (1 - (0 + 1)) 0) = 18888889 / 10
    rw [hb0]
    rw [show (1 : ℕ) - (0 + 1) = 0 from rfl]
    rw [excelRound_eval_grid _ (show ((8888889 / 10 : ℚ) +
      ([1000000, 8888889 / 10] : List ℚ).getD 0 0) = ((18888889 : ℤ) : ℚ) / 10 ^ 1 by norm_num)]
    norm_num
  unfold backwardVec
  norm_num [List.range_succ, hb0, hb1]

/-- C2 counterexample: in `ctxN` (where `ROUND_DX = 1` and
`ROUND_NX = 0`) the code's `Nx[0]` is `1888888.9`, while the claimed
recurrence rounded at `Nx`'s own precision would give
`round(1888888.9) = 1888889`. -/
theorem claimC2_cex :
    Vec_Dx ctxN (-1) ("M") ("DAV1994_T") 0 = .ok [1000000, 8888889 / 10] ∧
    Vec_Nx ctxN ("M") ("DAV1994_T") 0 = .ok [18888889 / 10, 8888889 / 10] ∧
    ([18888889 / 10, 8888889 / 10] : List ℚ).getD 0 0 ≠
      excelRound ctxN.ROUND_NX (([18888889 / 10, 8888889 / 10] : List ℚ).getD 1 0 +
        ([1000000, 8888889 / 10] : List ℚ).getD 0 0) := by
  refine ⟨ctxN_Vec_Dx, ctxN_Vec_Nx, ?_⟩
  have hn : ctxN.ROUND_NX = 0 := rfl
  rw [hn]
  rw [show (([18888889 / 10, 8888889 / 10] : List ℚ).getD 1 0 +
    ([1000000, 8888889 / 10] : List ℚ).getD 0 0) = (18888889 / 10 : ℚ) by norm_num]
  rw [excelRound_eval 0 1888889 (by norm_num) (by norm_num) (by norm_num)]
  norm_num

/-- C2 witness: the amended recurrence applied to the concrete vectors
of `ctxN`: `Nx[MAX] = Dx[MAX]` and `Nx[0] = round(Nx[1] + Dx[0],
ROUND_DX)`. -/
theorem claimC2_witness :
    ([18888889 / 10, 8888889 / 10] : List ℚ).getD ctxN.MAX_AGE 0 =
      ([1000000, 8888889 / 10] : List ℚ).getD ctxN.MAX_AGE 0 ∧
    ∀ j, j < ctxN.MAX_AGE →
      ([18888889 / 10, 8888889 / 10] : List ℚ).getD j 0 =
        excelRound ctxN.ROUND_DX (([18888889 / 10, 8888889 / 10] : List ℚ).getD (j + 1) 0 +
          ([1000000, 8888889 / 10] : List ℚ).getD j 0) :=
  claimC2_Nx_recurrence ctxN ("M") ("DAV1994_T") 0 _ _ ctxN_Vec_Dx ctxN_Vec_Nx

theorem pyDiv_ok {a b : ℚ} (h : b ≠ 0) : pyDiv a b = .ok (a / b) := by
  unfold pyDiv
  rw [if_neg h]

theorem pyDiv_ok_inv {a b v : ℚ} (h : pyDiv a b = .ok v) : b ≠ 0 ∧ v = a / b := by
  unfold pyDiv at h
  by_cases hz : b = 0
  · rw [if_pos hz] at h
    simp at h
  · rw [if_neg hz] at h
    exact ⟨hz, (ok_inj h).symm⟩

theorem dtSum_ok {k : ℤ} {InterestRate : ℚ} :
    ∀ m : ℕ, (∀ l : ℕ, l < m → 1 + ((l : ℚ) / (k : ℚ)) * InterestRate ≠ 0) →
      dtSum k InterestRate m =
        .ok (∑ l in Finset.range m, ((l : ℚ) / (k : ℚ)) /
          (1 + ((l : ℚ) / (k : ℚ)) * InterestRate)) := by
  intro m
  induction m with
  | zero =>
    intro _
    simp [dtSum]
  | succ m ih =>
    intro hden
    have hm := ih (fun l hl => hden l (by omega))
    unfold dtSum
    rw [hm]
    simp only [ok_bind]
    rw [pyDiv_ok (hden m (by omega))]
    simp only [ok_bind, pure_eq_ok, Except.ok.injEq]
    rw [Finset.sum_range_succ]

/-- C8: `Act_DeductionTerm(k, i)` is `0` for `k ≤ 0`; for `k > 0` (and
well-defined term denominators) it equals
`(1+i)/k * Σ_{l=0}^{k-1} (l/k)/(1+(l/k)*i)`, which at `i = 0` is the
closed form `(k-1)/(2k)`. -/
theorem claimC8_deduction_term (k : ℤ) (InterestRate : ℚ) :
    (k ≤ 0 → Act_DeductionTerm k InterestRate = .ok 0) ∧
    (0 < k → (∀ l : ℕ, l < k.toNat → 1 + ((l : ℚ) / (k : ℚ)) * InterestRate ≠ 0) →
      Act_DeductionTerm k InterestRate =
        .ok ((1 + InterestRate) / (k : ℚ) *
          ∑ l in Finset.range k.toNat, ((l : ℚ) / (k : ℚ)) /
            (1 + ((l : ℚ) / (k : ℚ)) * InterestRate))) ∧
    (0 < k → InterestRate = 0 →
      Act_DeductionTerm k InterestRate = .ok (((k : ℚ) - 1) / (2 * (k : ℚ)))) := by
  refine ⟨?_, ?_, ?_⟩
  · intro hk
    unfold Act_DeductionTerm
    rw [if_neg (by omega)]
    rfl
  · intro hk hden
    unfold Act_DeductionTerm
    rw [if_pos hk, dtSum_ok k.toNat hden]
    simp only [ok_bind, pure_eq_ok, Except.ok.injEq]
    ring
  · intro hk hi
    subst hi
    have hden : ∀ l : ℕ, l < k.toNat → 1 + ((l : ℚ) / (k : ℚ)) * 0 ≠ 0 := by
      intro l _
      simp
    unfold Act_DeductionTerm
    rw [if_pos hk, dtSum_ok k.toNat hden]
    simp only [ok_bind, pure_eq_ok, Except.ok.injEq]
    have hkq : ((k : ℚ)) ≠ 0 := by
      exact_mod_cast (by omega : k ≠ 0)
    have hsum : (∑ l in Finset.range k.toNat, ((l : ℚ) / (k : ℚ)) /
        (1 + ((l : ℚ) / (k : ℚ)) * 0)) = ((k : ℚ) - 1) / 2 := by
      have h1 : ∀ l ∈ Finset.range k.toNat, ((l : ℚ) / (k : ℚ)) /
          (1 + ((l : ℚ) / (k : ℚ)) * 0) = (l : ℚ) * ((k : ℚ))⁻¹ := by
        intro l _
        field_simp
      rw [Finset.sum_congr rfl h1, ← Finset.sum_mul]
      have h2 : (∑ l in Finset.range k.toNat, (l : ℚ)) =
          ((k.toNat : ℚ) * ((k.toNat : ℚ) - 1)) / 2 := by
        have h3 := Finset.sum_range_id_mul_two k.toNat
        have h4 : ((∑ l in Finset.range k.toNat, (l : ℕ)) : ℚ) * 2 =
            (k.toNat : ℚ) * ((k.toNat : ℚ) - 1) := by
          rcases Nat.eq_zero_or_pos k.toNat with h0 | h0
          · simp [h0]
          · have := congrArg (fun n : ℕ => (n : ℚ)) h3
            push_cast [Nat.cast_sub h0] at this
            linarith
        push_cast at h4
        linarith
      have h5 : ((k.toNat : ℚ)) = (k : ℚ) := by
        exact_mod_cast congrArg (fun z : ℤ => (z : ℚ)) (Int.toNat_of_nonneg (by omega))
      rw [h2, h5]
      field_simp
      ring
    rw [hsum]
    field_simp

/-- C8 witness: `DeductionTerm(-3, 5) = 0`; at `k = 2, i = 1` the sum
formula applies with nonzero denominators; and `DeductionTerm(2, 0)`
equals the closed form `(2-1)/(2*2) = 1/4`. -/
theorem claimC8_witness :
    Act_DeductionTerm (-3) 5 = .ok 0 ∧
    Act_DeductionTerm 2 1 =
      .ok ((1 + 1) / ((2 : ℤ) : ℚ) *
        ∑ l in Finset.range (2 : ℤ).toNat, ((l : ℚ) / ((2 : ℤ) : ℚ)) /
          (1 + ((l : ℚ) / ((2 : ℤ) : ℚ)) * 1)) ∧
    Act_DeductionTerm 2 0 = .ok ((((2 : ℤ) : ℚ) - 1) / (2 * ((2 : ℤ) : ℚ))) := by
  refine ⟨(claimC8_deduction_term (-3) 5).1 (by norm_num),
    (claimC8_deduction_term 2 1).2.1 (by norm_num) ?_,
    (claimC8_deduction_term 2 0).2.2 (by norm_num) rfl⟩
  intro l hl
  have hl2 : l < 2 := by simpa using hl
  interval_cases l <;> norm_num

/-- C9: `Act_qx` fails with the unsupported-table error exactly when the
stripped, upper-cased table id is neither `DAV1994_T` nor `DAV2008_T`;
for an allow-listed table it fails with the missing-column error when
the `(table, normalized sex)` column is absent, with the out-of-range
error when the age is negative or at least the vector's size, and
otherwise returns the stored rate. -/
theorem claimC9_qx_errors (ctx : Ctx) (Age : ℤ) (Sex TableId : String) :
    (¬(pyUpper (pyStrip TableId) = "DAV1994_T" ∨ pyUpper (pyStrip TableId) = "DAV2008_T") →
      Act_qx ctx Age Sex TableId = .error .unsupportedTable) ∧
    ((pyUpper (pyStrip TableId) = "DAV1994_T" ∨ pyUpper (pyStrip TableId) = "DAV2008_T") →
      (ctx.tables (pyUpper (pyStrip TableId) ++ "_" ++ normSex Sex) = none →
        Act_qx ctx Age Sex TableId = .error .columnNotFound) ∧
      (∀ vec, ctx.tables (pyUpper (pyStrip TableId) ++ "_" ++ normSex Sex) = some vec →
        ((Age < 0 ∨ (vec.length : ℤ) ≤ Age) →
          Act_qx ctx Age Sex TableId = .error .ageOutOfRange) ∧
        (¬(Age < 0 ∨ (vec.length : ℤ) ≤ Age) →
          Act_qx ctx Age Sex TableId = .ok (vec.getD Age.toNat 0)))) := by
  constructor
  · intro hno
    unfold Act_qx
    rw [if_neg hno]
  · intro hyes
    constructor
    · intro hnone
      unfold Act_qx
      rw [if_pos hyes, hnone]
    · intro vec hsome
      constructor
      · intro hrange
        unfold Act_qx
        rw [if_pos hyes, hsome]
        simp only [if_pos hrange]
      · intro hrange
        unfold Act_qx
        rw [if_pos hyes, hsome]
        simp only [if_neg hrange]

/-- C9 witness: in `ctxT`, a table id that normalizes to `KLV` is
rejected as unsupported; `DAV1994_T` with sex `M` and age 0 returns the
stored rate 1/10; age 7 is out of range; and sex `w` (normalized `F`)
hits a missing column. -/
theorem claimC9_witness :
    Act_qx ctxT 0 ("M") ("klv ") = .error .unsupportedTable ∧
    Act_qx ctxT 0 ("M") ("DAV1994_T") = .ok (([1 / 10] : List ℚ).getD 0 0) ∧
    Act_qx ctxT 7 ("M") ("DAV1994_T") = .error .ageOutOfRange ∧
    Act_qx ctxT 0 ("w") ("DAV1994_T") = .error .columnNotFound := by
  have htid : pyUpper (pyStrip ("DAV1994_T")) = "DAV1994_T" := by decide
  have hsexM : normSex ("M") = "M" := by decide
  have hsexW : normSex ("w") = "F" := by decide
  have hsome : ctxT.tables (pyUpper (pyStrip ("DAV1994_T")) ++ "_" ++ normSex ("M")) =
      some [1 / 10] := by
    rw [htid, hsexM]
    simp [ctxT]
  have hnone : ctxT.tables (pyUpper (pyStrip ("DAV1994_T")) ++ "_" ++ normSex ("w")) =
      none := by
    rw [htid, hsexW]
    simp [ctxT]
  refine ⟨?_, ?_, ?_, ?_⟩
  · exact (claimC9_qx_errors ctxT 0 ("M") ("klv ")).1 (by decide)
  · exact (((claimC9_qx_errors ctxT 0 ("M") ("DAV1994_T")).2 (Or.inl htid)).2 [1 / 10]
      hsome).2 (by norm_num)
  · exact (((claimC9_qx_errors ctxT 7 ("M") ("DAV1994_T")).2 (Or.inl htid)).2 [1 / 10]
      hsome).1 (by norm_num)
  · exact ((claimC9_qx_errors ctxT 0 ("w") ("DAV1994_T")).2 (Or.inl htid)).1 hnone

theorem cacheLookup_cons_self (c : PCache) (k : CacheKey) (v : ℚ) :
    cacheLookup ((k, v) :: c) k = some v := by
  unfold cacheLookup
  rw [List.find?_cons_of_pos _ (by simp)]
  rfl

theorem memoCall_idem {cache : PCache} {key : CacheKey} {compute : Except Err ℚ}
    {v : ℚ} {c1 : PCache} {b : Bool}
    (h : memoCall cache key compute = .ok (v, c1, b)) :
    memoCall c1 key compute = .ok (v, c1, false) := by
  unfold memoCall at h ⊢
  cases hl : cacheLookup cache key with
  | some w =>
    rw [hl] at h
    have h2 := ok_inj h
    cases h2
    rw [hl]
  | none =>
    rw [hl] at h
    obtain ⟨value, hcv, h2⟩ := bind_ok_inv h
    have h3 := ok_inj h2
    cases h3
    rw [cacheLookup_cons_self]

/-- C5: for a fixed parameter tuple, if a memoized accessor call
returns a value, the immediately following call with the same
parameters on the resulting cache returns the identical value, leaves
the cache unchanged, and does not invoke the vector builder (its
builder flag is `false`). -/
theorem claimC5_cache_idempotent (ctx : Ctx) (cache : PCache) (Age : ℤ)
    (Sex TableId : String) (InterestRate : ℚ) (BirthYear RetirementAge Layer : ℤ) :
    (∀ v c1 b, Act_Dx_c ctx cache Age Sex TableId InterestRate BirthYear RetirementAge
        Layer = .ok (v, c1, b) →
      Act_Dx_c ctx c1 Age Sex TableId InterestRate BirthYear RetirementAge Layer =
        .ok (v, c1, false)) ∧
    (∀ v c1 b, Act_Cx_c ctx cache Age Sex TableId InterestRate BirthYear RetirementAge
        Layer = .ok (v, c1, b) →
      Act_Cx_c ctx c1 Age Sex TableId InterestRate BirthYear RetirementAge Layer =
        .ok (v, c1, false)) ∧
    (∀ v c1 b, Act_Nx_c ctx cache Age Sex TableId InterestRate BirthYear RetirementAge
        Layer = .ok (v, c1, b) →
      Act_Nx_c ctx c1 Age Sex TableId InterestRate BirthYear RetirementAge Layer =
        .ok (v, c1, false)) ∧
    (∀ v c1 b, Act_Mx_c ctx cache Age Sex TableId InterestRate BirthYear RetirementAge
        Layer = .ok (v, c1, b) →
      Act_Mx_c ctx c1 Age Sex TableId InterestRate BirthYear RetirementAge Layer =
        .ok (v, c1, false)) ∧
    (∀ v c1 b, Act_Rx_c ctx cache Age Sex TableId InterestRate BirthYear RetirementAge
        Layer = .ok (v, c1, b) →
      Act_Rx_c ctx c1 Age Sex TableId InterestRate BirthYear RetirementAge Layer =
        .ok (v, c1, false)) := by
  refine ⟨?_, ?_, ?_, ?_, ?_⟩
  · intro v c1 b h
    unfold Act_Dx_c at h ⊢
    exact memoCall_idem h
  · intro v c1 b h
    unfold Act_Cx_c at h ⊢
    exact memoCall_idem h
  · intro v c1 b h
    unfold Act_Nx_c at h ⊢
    exact memoCall_idem h
  · intro v c1 b h
    unfold Act_Mx_c at h ⊢
    exact memoCall_idem h
  · intro v c1 b h
    unfold Act_Rx_c at h ⊢
    exact memoCall_idem h

theorem ctxT_Act_Dx0 : Act_Dx ctxT 0 ("M") ("DAV1994_T") 0 = .ok 1000000 := by
  unfold Act_Dx
  have hvd : Vec_Dx ctxT 0 ("M") ("DAV1994_T") 0 = .ok [1000000] := by
    simp only [Vec_Dx, limitOf]
    norm_num
    have hv : pyDiv (1 : ℚ) 1 = .ok 1 := by
      simp [pyDiv]
    rw [hv]
    simp only [ok_bind]
    rw [ctxT_Vec_lx0]
    simp only [ok_bind, pure_eq_ok]
    have he : excelRound ctxT.ROUND_DX ((1000000 : ℚ)) = 1000000 := by
      rw [excelRound_eval_int _ (show (1000000 : ℚ) = ((1000000 : ℤ) : ℚ) by norm_num)]
    norm_num [List.range_succ, he]
  rw [hvd]
  simp only [ok_bind]
  simp [pyIndex, pyIdx]

/-- C5 witness: in `ctxT`, the first `Act_Dx` call at age 0 computes
`1000000`, stores it, and reports the builder invoked; the second call
returns the identical value from the unchanged cache with the builder
flag `false`. -/
theorem claimC5_witness :
    Act_Dx_c ctxT [] 0 ("M") ("DAV1994_T") 0 0 0 1 =
      .ok (1000000, [(BuildCacheKey ("Dx") 0 ("M") ("DAV1994_T") 0 0 0 1, 1000000)], true) ∧
    Act_Dx_c ctxT [(BuildCacheKey ("Dx") 0 ("M") ("DAV1994_T") 0 0 0 1, 1000000)] 0 ("M")
        ("DAV1994_T") 0 0 0 1 =
      .ok (1000000, [(BuildCacheKey ("Dx") 0 ("M") ("DAV1994_T") 0 0 0 1, 1000000)],
        false) := by
  have h1 : Act_Dx_c ctxT [] 0 ("M") ("DAV1994_T") 0 0 0 1 =
      .ok (1000000, [(BuildCacheKey ("Dx") 0 ("M") ("DAV1994_T") 0 0 0 1, 1000000)],
        true) := by
    unfold Act_Dx_c memoCall
    rw [show cacheLookup [] (BuildCacheKey ("Dx") 0 ("M") ("DAV1994_T") 0 0 0 1) = none
      from rfl]
    rw [ctxT_Act_Dx0]
    rfl
  exact ⟨h1, (claimC5_cache_idempotent ctxT [] 0 ("M") ("DAV1994_T") 0 0 0 1).1 1000000 _
    true h1⟩

theorem buildList_ok_of {α : Type} {f : ℕ → Except Err α} :
    ∀ n : ℕ, (∀ i, i < n → ∃ a, f i = .ok a) → ∃ ys, buildList f n = .ok ys := by
  intro n
  induction n with
  | zero => exact fun _ => ⟨[], rfl⟩
  | succ n ih =>
    intro hf
    obtain ⟨ys, hys⟩ := ih (fun i hi => hf i (by omega))
    obtain ⟨a, ha⟩ := hf n (by omega)
    refine ⟨ys ++ [a], ?_⟩
    unfold buildList
    rw [hys]
    simp only [ok_bind]
    rw [ha]
    rfl

theorem lxVal_exists {ctx : Ctx} {Sex TableId : String}
    (hq : ∀ a : ℤ, 0 ≤ a → a < (ctx.MAX_AGE : ℤ) → ∃ q, Act_qx ctx a Sex TableId = .ok q) :
    ∀ i : ℕ, i ≤ ctx.MAX_AGE → ∃ v, lxVal ctx Sex TableId i = .ok v := by
  intro i
  induction i with
  | zero => exact fun _ => ⟨1000000, rfl⟩
  | succ i ih =>
    intro hi
    obtain ⟨prev, hp⟩ := ih (by omega)
    obtain ⟨q, hqx⟩ := hq (i : ℤ) (by exact_mod_cast Nat.zero_le i) (by exact_mod_cast hi)
    refine ⟨excelRound ctx.ROUND_LX (prev * (1 - q)), ?_⟩
    unfold lxVal
    rw [hp]
    simp only [ok_bind]
    rw [hqx]
    rfl

theorem pyIndex_neg_one {xs : List ℚ} (h : xs ≠ []) :
    pyIndex xs (-1) = .ok (xs.getD (xs.length - 1) 0) := by
  have hlen : 0 < xs.length := List.length_pos.mpr h
  unfold pyIndex pyIdx
  rw [if_pos (by norm_num : (-1 : ℤ) < 0)]
  rw [if_pos (by constructor <;> omega)]
  rw [show ((xs.length : ℤ) + -1).toNat = xs.length - 1 from by omega]

/-- C10: calling `Act_lx` or the cached `Act_Dx` with `Age = -1` does
not fail: the builders go out to `MAX_AGE`, the final `vec[-1]` selects
the last element, and `Act_Dx` caches the value of the maximum
configured age under a key whose age field is `-1`. -/
theorem claimC10_minus_one (ctx : Ctx) (Sex TableId : String) (InterestRate : ℚ)
    (hq : ∀ a : ℤ, 0 ≤ a → a < (ctx.MAX_AGE : ℤ) → ∃ q, Act_qx ctx a Sex TableId = .ok q)
    (hi : (1 : ℚ) + InterestRate ≠ 0) :
    (∃ lxv, Vec_lx ctx (-1) Sex TableId = .ok lxv ∧ lxv.length = ctx.MAX_AGE + 1 ∧
      Act_lx ctx (-1) Sex TableId = .ok (lxv.getD ctx.MAX_AGE 0)) ∧
    (∃ dxv, Vec_Dx ctx (-1) Sex TableId InterestRate = .ok dxv ∧
      dxv.length = ctx.MAX_AGE + 1 ∧
      ∀ cache : PCache,
        cacheLookup cache (BuildCacheKey ("Dx") (-1) Sex TableId InterestRate 0 0 1) =
          none →
        Act_Dx_c ctx cache (-1) Sex TableId InterestRate 0 0 1 =
          .ok (dxv.getD ctx.MAX_AGE 0,
            (BuildCacheKey ("Dx") (-1) Sex TableId InterestRate 0 0 1,
              dxv.getD ctx.MAX_AGE 0) :: cache, true)) := by
  have hlim : limitOf ctx (-1) = (ctx.MAX_AGE : ℤ) := by
    unfold limitOf
    rw [if_pos rfl]
  have htn : ((ctx.MAX_AGE : ℤ)).toNat = ctx.MAX_AGE := by omega
  have hbuild : ∃ lxv, buildList (lxVal ctx Sex TableId) (ctx.MAX_AGE + 1) = .ok lxv := by
    apply buildList_ok_of
    intro i hi2
    exact lxVal_exists hq i (by omega)
  obtain ⟨lxv, hlxv⟩ := hbuild
  have hlxlen : lxv.length = ctx.MAX_AGE + 1 := (buildList_ok hlxv).1
  have hVlx : Vec_lx ctx (-1) Sex TableId = .ok lxv := by
    unfold Vec_lx
    rw [hlim, if_neg (by omega), htn]
    exact hlxv
  have hVlxM : Vec_lx ctx ((ctx.MAX_AGE : ℤ)) Sex TableId = .ok lxv := by
    unfold Vec_lx
    rw [limitOf_idem (by omega), if_neg (by omega), htn]
    exact hlxv
  have hne : lxv ≠ [] := by
    intro hnil
    rw [hnil] at hlxlen
    simp at hlxlen
  constructor
  · refine ⟨lxv, hVlx, hlxlen, ?_⟩
    unfold Act_lx
    rw [hVlx]
    simp only [ok_bind]
    rw [pyIndex_neg_one hne, hlxlen, Nat.add_sub_cancel]
  · have hvdx : Vec_Dx ctx (-1) Sex TableId InterestRate =
        .ok ((List.range (ctx.MAX_AGE + 1)).map fun idx =>
          excelRound ctx.ROUND_DX (lxv.getD idx 0 * (1 / (1 + InterestRate)) ^ idx)) := by
      unfold Vec_Dx
      rw [hlim, if_neg (by omega), pyDiv_ok hi]
      simp only [ok_bind]
      rw [hVlxM]
      simp only [ok_bind, pure_eq_ok, htn]
    refine ⟨_, hvdx, ?_, ?_⟩
    · rw [List.length_map, List.length_range]
    · intro cache hnone
      have hADx : Act_Dx ctx (-1) Sex TableId InterestRate =
          .ok (((List.range (ctx.MAX_AGE + 1)).map fun idx =>
            excelRound ctx.ROUND_DX
              (lxv.getD idx 0 * (1 / (1 + InterestRate)) ^ idx)).getD ctx.MAX_AGE 0) := by
        unfold Act_Dx
        rw [hvdx]
        simp only [ok_bind]
        have hdne : ((List.range (ctx.MAX_AGE + 1)).map fun idx =>
            excelRound ctx.ROUND_DX
              (lxv.getD idx 0 * (1 / (1 + InterestRate)) ^ idx)) ≠ [] := by
          intro hnil
          have := congrArg List.length hnil
          simp at this
        rw [pyIndex_neg_one hdne]
        rw [List.length_map, List.length_range, Nat.add_sub_cancel]
      unfold Act_Dx_c memoCall
      rw [hnone, hADx]
      rfl

/-- C10 witness: in `ctxT` (maximum age 1), `Act_lx(-1)` and the cached
`Act_Dx(-1)` on an empty cache succeed and return the value at the
maximum age, caching it under the age `-1` key. -/
theorem claimC10_witness :
    (∃ lxv, Vec_lx ctxT (-1) ("M") ("DAV1994_T") = .ok lxv ∧
      lxv.length = ctxT.MAX_AGE + 1 ∧
      Act_lx ctxT (-1) ("M") ("DAV1994_T") = .ok (lxv.getD ctxT.MAX_AGE 0)) ∧
    (∃ dxv, Vec_Dx ctxT (-1) ("M") ("DAV1994_T") 0 = .ok dxv ∧
      dxv.length = ctxT.MAX_AGE + 1 ∧
      ∀ cache : PCache,
        cacheLookup cache (BuildCacheKey ("Dx") (-1) ("M") ("DAV1994_T") 0 0 0 1) =
          none →
        Act_Dx_c ctxT cache (-1) ("M") ("DAV1994_T") 0 0 0 1 =
          .ok (dxv.getD ctxT.MAX_AGE 0,
            (BuildCacheKey ("Dx") (-1) ("M") ("DAV1994_T") 0 0 0 1,
              dxv.getD ctxT.MAX_AGE 0) :: cache, true)) := by
  apply claimC10_minus_one ctxT ("M") ("DAV1994_T") 0
  · intro a h0 h1
    have hm : ((ctxT.MAX_AGE : ℕ) : ℤ) = 1 := rfl
    rw [hm] at h1
    refine ⟨1 / 10, ?_⟩
    rw [ctxT_qx a, if_neg (by omega)]
  · norm_num

theorem pyDiv_zero (a : ℚ) : pyDiv a 0 = .error .divisionByZero := by
  unfold pyDiv
  rw [if_pos rfl]

theorem Act_axn_k_one_inv {ctx : Ctx} {Age n : ℤ} {Sex TableId : String}
    {InterestRate v : ℚ}
    (h : Act_axn_k ctx Age n Sex TableId InterestRate 1 = .ok v) :
    ∃ dx, Act_Dx ctx Age Sex TableId InterestRate = .ok dx ∧ dx ≠ 0 := by
  unfold Act_axn_k at h
  rw [if_pos (by norm_num : (0 : ℤ) < 1)] at h
  obtain ⟨dx, hdx, h⟩ := bind_ok_inv h
  obtain ⟨dxn, hdxn, h⟩ := bind_ok_inv h
  obtain ⟨nx, hnx, h⟩ := bind_ok_inv h
  obtain ⟨nxn, hnxn, h⟩ := bind_ok_inv h
  obtain ⟨r1, hr1, h⟩ := bind_ok_inv h
  exact ⟨dx, hdx, (pyDiv_ok_inv hr1).1⟩

/-- C1, as it holds on the code: given the five actuarial factors, the
premium block returns the stated normalized rate and gross annual
premium, and `calc_premium_calculation` fails exactly when the rate
denominator `(1-beta1)*axn(x,t) - alpha*t` is zero, OR the payment
frequency is zero (the gross modal premium divides by it), OR
`axn(x,t)` itself is zero (the `Pxt` denominator). -/
theorem claimC1_premium_amended (ctx : Ctx) (p : PolicyInputs) (tf : TariffInputs)
    (axt_v axn_v dx_v dxn_v g_v : ℚ)
    (haxt : Act_axn_k ctx p.x p.t p.sex tf.mortality_table tf.interest_rate 1 = .ok axt_v)
    (haxn : Act_axn_k ctx p.x p.n p.sex tf.mortality_table tf.interest_rate 1 = .ok axn_v)
    (hdx : Act_Dx ctx p.x p.sex tf.mortality_table tf.interest_rate = .ok dx_v)
    (hdxn : Act_Dx ctx (p.x + p.n) p.sex tf.mortality_table tf.interest_rate = .ok dxn_v)
    (hg : act_nGrAx ctx p.x p.n p.sex tf.mortality_table tf.interest_rate = .ok g_v) :
    (((1 - tf.beta1) * axt_v - tf.alpha * (p.t : ℚ) ≠ 0 ∧ axt_v ≠ 0 ∧
        (p.pay_freq : ℚ) ≠ 0) →
      calc_premium_calculation ctx p tf = .ok
        { NormGrossAnnualPrem := (g_v + dxn_v / dx_v + tf.gamma1 * axt_v +
            tf.gamma2 * (axn_v - axt_v)) /
            ((1 - tf.beta1) * axt_v - tf.alpha * (p.t : ℚ)),
          GrossAnnualPrem := p.sum_insured * ((g_v + dxn_v / dx_v + tf.gamma1 * axt_v +
            tf.gamma2 * (axn_v - axt_v)) /
            ((1 - tf.beta1) * axt_v - tf.alpha * (p.t : ℚ))),
          GrossModalPrem := (1 + tf.modal_surcharge) / (p.pay_freq : ℚ) *
            (p.sum_insured * ((g_v + dxn_v / dx_v + tf.gamma1 * axt_v +
              tf.gamma2 * (axn_v - axt_v)) /
              ((1 - tf.beta1) * axt_v - tf.alpha * (p.t : ℚ))) + tf.k),
          Pxt := (g_v + dxn_v / dx_v + (p.t : ℚ) * tf.alpha *
            ((g_v + dxn_v / dx_v + tf.gamma1 * axt_v + tf.gamma2 * (axn_v - axt_v)) /
              ((1 - tf.beta1) * axt_v - tf.alpha * (p.t : ℚ)))) / axt_v }) ∧
    (((1 - tf.beta1) * axt_v - tf.alpha * (p.t : ℚ) = 0 ∨ axt_v = 0 ∨
        (p.pay_freq : ℚ) = 0) →
      ∃ e, calc_premium_calculation ctx p tf = .error e) := by
  have hdxz : dx_v ≠ 0 := by
    obtain ⟨dx2, hdx2, hz⟩ := Act_axn_k_one_inv haxt
    have he : dx2 = dx_v := ok_inj (hdx2.symm.trans hdx)
    rw [← he]
    exact hz
  unfold calc_premium_calculation
  rw [haxt]
  simp only [ok_bind]
  rw [haxn]
  simp only [ok_bind]
  rw [hdx]
  simp only [ok_bind]
  rw [hdxn]
  simp only [ok_bind]
  rw [hg]
  simp only [ok_bind]
  rw [pyDiv_ok hdxz]
  simp only [ok_bind]
  constructor
  · rintro ⟨hd, ha, hp⟩
    rw [pyDiv_ok hd]
    simp only [ok_bind]
    rw [pyDiv_ok hp]
    simp only [ok_bind]
    rw [pyDiv_ok ha]
    simp only [ok_bind, pure_eq_ok]
  · intro hor
    by_cases hd : (1 - tf.beta1) * axt_v - tf.alpha * (p.t : ℚ) = 0
    · rw [hd, pyDiv_zero]
      simp only [error_bind]
      exact ⟨_, rfl⟩
    · rw [pyDiv_ok hd]
      simp only [ok_bind]
      by_cases hp : (p.pay_freq : ℚ) = 0
      · rw [hp, pyDiv_zero]
        simp only [error_bind]
        exact ⟨_, rfl⟩
      · rw [pyDiv_ok hp]
        simp only [ok_bind]
        have ha0 : axt_v = 0 := by tauto
        rw [ha0, pyDiv_zero]
        simp only [error_bind]
        exact ⟨_, rfl⟩

theorem ctxT_Vec_Dx1 : Vec_Dx ctxT 1 ("M") ("DAV1994_T") 0 = .ok [1000000, 900000] := by
  simp only [Vec_Dx, limitOf]
  norm_num
  have hv : pyDiv (1 : ℚ) 1 = .ok 1 := by
    simp [pyDiv]
  rw [hv]
  simp only [ok_bind]
  rw [ctxT_Vec_lx1]
  simp only [ok_bind, pure_eq_ok]
  have he0 : excelRound ctxT.ROUND_DX ((1000000 : ℚ)) = 1000000 := by
    rw [excelRound_eval_int _ (show (1000000 : ℚ) = ((1000000 : ℤ) : ℚ) by norm_num)]
  have he1 : excelRound ctxT.ROUND_DX ((900000 : ℚ)) = 900000 := by
    rw [excelRound_eval_int _ (show (900000 : ℚ) = ((900000 : ℤ) : ℚ) by norm_num)]
  norm_num [List.range_succ, he0, he1]

theorem ctxT_Act_Dx1 : Act_Dx ctxT 1 ("M") ("DAV1994_T") 0 = .ok 900000 := by
  unfold Act_Dx
  rw [ctxT_Vec_Dx1]
  simp only [ok_bind]
  simp [pyIndex, pyIdx]

theorem ctxT_Vec_DxM : Vec_Dx ctxT (-1) ("M") ("DAV1994_T") 0 = .ok [1000000, 900000] := by
  simp only [Vec_Dx, limitOf, if_true]
  rw [show ((ctxT.MAX_AGE : ℕ) : ℤ) = 1 from rfl]
  norm_num
  have hv : pyDiv (1 : ℚ) 1 = .ok 1 := by
    simp [pyDiv]
  rw [hv]
  simp only [ok_bind]
  rw [ctxT_Vec_lx1]
  simp only [ok_bind, pure_eq_ok]
  have he0 : excelRound ctxT.ROUND_DX ((1000000 : ℚ)) = 1000000 := by
    rw [excelRound_eval_int _ (show (1000000 : ℚ) = ((1000000 : ℤ) : ℚ) by norm_num)]
  have he1 : excelRound ctxT.ROUND_DX ((900000 : ℚ)) = 900000 := by
    rw [excelRound_eval_int _ (show (900000 : ℚ) = ((900000 : ℤ) : ℚ) by norm_num)]
  norm_num [List.range_succ, he0, he1]

theorem ctxT_Vec_Nx : Vec_Nx ctxT ("M") ("DAV1994_T") 0 = .ok [1900000, 900000] := by
  unfold Vec_Nx
  rw [ctxT_Vec_DxM]
  simp only [ok_bind, pure_eq_ok]
  rw [show ctxT.ROUND_DX = 0 from rfl, show ctxT.MAX_AGE = 1 from rfl]
  have hb0 : backAux 0 [1000000, 900000] 1 0 = 900000 := rfl
  have hb1 : backAux 0 [1000000, 900000] 1 1 = 1900000 := by
    show excelRound 0 (backAux 0 [1000000, 900000] 1 0
      + ([1000000, 900000] : List ℚ).getD (1 - (0 + 1)) 0) = 1900000
    rw [hb0, show (1 : ℕ) - (0 + 1) = 0 from rfl]
    rw [excelRound_eval_int _ (show ((900000 : ℚ) +
      ([1000000, 900000] : List ℚ).getD 0 0) = ((1900000 : ℤ) : ℚ) by norm_num)]
    norm_num
  unfold backwardVec
  norm_num [List.range_succ, hb0, hb1]

theorem ctxT_Act_Nx0 : Act_Nx ctxT 0 ("M") ("DAV1994_T") 0 = .ok 1900000 := by
  unfold Act_Nx
  rw [ctxT_Vec_Nx]
  simp only [ok_bind]
  simp [pyIndex, pyIdx]

theorem ctxT_Act_Nx1 : Act_Nx ctxT 1 ("M") ("DAV1994_T") 0 = .ok 900000 := by
  unfold Act_Nx
  rw [ctxT_Vec_Nx]
  simp only [ok_bind]
  simp [pyIndex, pyIdx]

theorem ctxT_Vec_Cx : Vec_Cx ctxT (-1) ("M") ("DAV1994_T") 0 = .ok [100000, 0] := by
  simp only [Vec_Cx, limitOf, if_true]
  rw [show ((ctxT.MAX_AGE : ℕ) : ℤ) = 1 from rfl]
  norm_num
  have hv : pyDiv (1 : ℚ) 1 = .ok 1 := by
    simp [pyDiv]
  rw [hv]
  simp only [ok_bind]
  rw [ctxT_Vec_tx1]
  simp only [ok_bind, pure_eq_ok]
  have he0 : excelRound ctxT.ROUND_CX ((100000 : ℚ)) = 100000 := by
    rw [excelRound_eval_int _ (show (100000 : ℚ) = ((100000 : ℤ) : ℚ) by norm_num)]
  norm_num [List.range_succ, he0]

theorem ctxT_Vec_Mx : Vec_Mx ctxT ("M") ("DAV1994_T") 0 = .ok [100000, 0] := by
  unfold Vec_Mx
  rw [ctxT_Vec_Cx]
  simp only [ok_bind, pure_eq_ok]
  rw [show ctxT.ROUND_MX = 0 from rfl, show ctxT.MAX_AGE = 1 from rfl]
  have hb0 : backAux 0 [100000, 0] 1 0 = 0 := rfl
  have hb1 : backAux 0 [100000, 0] 1 1 = 100000 := by
    show excelRound 0 (backAux 0 [100000, 0] 1 0
      + ([100000, 0] : List ℚ).getD (1 - (0 + 1)) 0) = 100000
    rw [hb0, show (1 : ℕ) - (0 + 1) = 0 from rfl]
    rw [excelRound_eval_int _ (show ((0 : ℚ) +
      ([100000, 0] : List ℚ).getD 0 0) = ((100000 : ℤ) : ℚ) by norm_num)]
    norm_num
  unfold backwardVec
  norm_num [List.range_succ, hb0, hb1]

theorem ctxT_Act_Mx0 : Act_Mx ctxT 0 ("M") ("DAV1994_T") 0 = .ok 100000 := by
  unfold Act_Mx
  rw [ctxT_Vec_Mx]
  simp only [ok_bind]
  simp [pyIndex, pyIdx]

theorem ctxT_Act_Mx1 : Act_Mx ctxT 1 ("M") ("DAV1994_T") 0 = .ok 0 := by
  unfold Act_Mx
  rw [ctxT_Vec_Mx]
  simp only [ok_bind]
  simp [pyIndex, pyIdx]

theorem ctxT_nGrAx : act_nGrAx ctxT 0 1 ("M") ("DAV1994_T") 0 = .ok (1 / 10) := by
  unfold act_nGrAx
  rw [ctxT_Act_Mx0]
  simp only [ok_bind]
  rw [show ((0 : ℤ) + 1) = 1 from by norm_num, ctxT_Act_Mx1]
  simp only [ok_bind]
  rw [ctxT_Act_Dx0, ok_bind, pyDiv_ok (by norm_num : (1000000 : ℚ) ≠ 0)]
  norm_num

theorem DT_one (i : ℚ) : Act_DeductionTerm 1 i = .ok 0 := by
  unfold Act_DeductionTerm
  rw [if_pos (by norm_num : (0 : ℤ) < 1)]
  have h1 : dtSum 1 i ((1 : ℤ).toNat) = .ok 0 := by
    show dtSum 1 i 1 = .ok 0
    have h0 : dtSum 1 i 0 = .ok 0 := rfl
    show (do
      let acc ← dtSum 1 i 0
      let term ← pyDiv (((0 : ℕ) : ℚ) / ((1 : ℤ) : ℚ))
        (1 + (((0 : ℕ) : ℚ) / ((1 : ℤ) : ℚ)) * i)
      pure (acc + term) : Except Err ℚ) = .ok 0
    rw [h0]
    simp only [ok_bind]
    rw [pyDiv_ok (by simp : (1 + (((0 : ℕ) : ℚ) / ((1 : ℤ) : ℚ)) * i) ≠ 0)]
    simp
  rw [h1]
  simp only [ok_bind, pure_eq_ok, Except.ok.injEq]
  ring

theorem ctxT_axn11 : Act_axn_k ctxT 0 1 ("M") ("DAV1994_T") 0 1 = .ok 1 := by
  unfold Act_axn_k
  rw [if_pos (by norm_num : (0 : ℤ) < 1)]
  rw [ctxT_Act_Dx0, ok_bind]
  rw [show ((0 : ℤ) + 1) = 1 from by norm_num, ctxT_Act_Dx1, ok_bind]
  rw [ctxT_Act_Nx0, ok_bind]
  rw [ctxT_Act_Nx1, ok_bind]
  rw [pyDiv_ok (by norm_num : (1000000 : ℚ) ≠ 0), ok_bind]
  rw [DT_one, ok_bind]
  rw [pyDiv_ok (by norm_num : (1000000 : ℚ) ≠ 0), ok_bind]
  rw [pure_eq_ok, Except.ok.injEq]
  norm_num

/-- C1 counterexample: for the policy `pT0` (payment frequency 0) all
five actuarial factors are defined and the rate denominator is nonzero,
yet `calc_premium_calculation` fails — the gross modal premium divides
by the payment frequency. -/
theorem claimC1_cex :
    Act_axn_k ctxT pT0.x pT0.t pT0.sex tfT.mortality_table tfT.interest_rate 1 = .ok 1 ∧
    Act_axn_k ctxT pT0.x pT0.n pT0.sex tfT.mortality_table tfT.interest_rate 1 = .ok 1 ∧
    Act_Dx ctxT pT0.x pT0.sex tfT.mortality_table tfT.interest_rate = .ok 1000000 ∧
    Act_Dx ctxT (pT0.x + pT0.n) pT0.sex tfT.mortality_table tfT.interest_rate =
      .ok 900000 ∧
    act_nGrAx ctxT pT0.x pT0.n pT0.sex tfT.mortality_table tfT.interest_rate =
      .ok (1 / 10) ∧
    (1 - tfT.beta1) * 1 - tfT.alpha * (pT0.t : ℚ) ≠ 0 ∧
    calc_premium_calculation ctxT pT0 tfT = .error .divisionByZero := by
  refine ⟨ctxT_axn11, ctxT_axn11, ctxT_Act_Dx0, ctxT_Act_Dx1, ctxT_nGrAx, ?_, ?_⟩
  · norm_num [tfT, pT0]
  · unfold calc_premium_calculation
    simp only [pT0, tfT]
    rw [ctxT_axn11, ok_bind, ok_bind]
    rw [ctxT_Act_Dx0, ok_bind]
    rw [show ((0 : ℤ) + 1) = 1 from by norm_num, ctxT_Act_Dx1, ok_bind]
    rw [ctxT_nGrAx, ok_bind]
    rw [pyDiv_ok (by norm_num : (1000000 : ℚ) ≠ 0), ok_bind]
    rw [pyDiv_ok (by norm_num :
      ((1 : ℚ) - 0) * 1 - 0 * ((1 : ℤ) : ℚ) ≠ 0), ok_bind]
    rw [show (((0 : ℤ) : ℚ)) = 0 from by norm_num, pyDiv_zero, error_bind]

/-- C1 witness: for the policy `pT1` (payment frequency 1) the premium
block succeeds with the claimed rate and gross premium formulas. -/
theorem claimC1_witness :
    calc_premium_calculation ctxT pT1 tfT = .ok
      { NormGrossAnnualPrem := ((1 : ℚ) / 10 + 900000 / 1000000 + tfT.gamma1 * 1 +
          tfT.gamma2 * (1 - 1)) / ((1 - tfT.beta1) * 1 - tfT.alpha * (pT1.t : ℚ)),
        GrossAnnualPrem := pT1.sum_insured * (((1 : ℚ) / 10 + 900000 / 1000000 +
          tfT.gamma1 * 1 + tfT.gamma2 * (1 - 1)) /
          ((1 - tfT.beta1) * 1 - tfT.alpha * (pT1.t : ℚ))),
        GrossModalPrem := (1 + tfT.modal_surcharge) / (pT1.pay_freq : ℚ) *
          (pT1.sum_insured * (((1 : ℚ) / 10 + 900000 / 1000000 + tfT.gamma1 * 1 +
            tfT.gamma2 * (1 - 1)) /
            ((1 - tfT.beta1) * 1 - tfT.alpha * (pT1.t : ℚ))) + tfT.k),
        Pxt := ((1 : ℚ) / 10 + 900000 / 1000000 + (pT1.t : ℚ) * tfT.alpha *
          (((1 : ℚ) / 10 + 900000 / 1000000 + tfT.gamma1 * 1 + tfT.gamma2 * (1 - 1)) /
            ((1 - tfT.beta1) * 1 - tfT.alpha * (pT1.t : ℚ)))) / 1 } := by
  exact (claimC1_premium_amended ctxT pT1 tfT 1 1 1000000 900000 (1 / 10)
    ctxT_axn11 ctxT_axn11 ctxT_Act_Dx0 ctxT_Act_Dx1 ctxT_nGrAx).1
    ⟨by norm_num [tfT, pT1], by norm_num, by norm_num [pT1]⟩

theorem rowCalc_ok_inv {ctx : Ctx} {p : PolicyInputs} {tf : TariffInputs} {lm : Limits}
    {pxt gap ax_ratio ax5 dxxn : ℚ} {k : ℕ} {r : Row}
    (h : rowCalc ctx p tf lm pxt gap ax_ratio ax5 dxxn k = .ok r) :
    r.k = (k : ℤ) ∧
    r.kDRx_pp = p.sum_insured * r.kVx_pp ∧
    r.Flex_phase = (if lm.min_age_flex ≤ p.x + (k : ℤ) ∧
      p.n - lm.min_term_flex ≤ (k : ℤ) then 1 else 0) ∧
    r.Surrender_deduction = (if p.n < (k : ℤ) ∨ r.Flex_phase = 1 then 0
      else min 150 (max 50 ((1 / 100) * (p.sum_insured - r.kDRx_pp)))) ∧
    r.SumInsured_pu = (if p.n < (k : ℤ) then 0
      else if (k : ℤ) < p.t then (if r.kVx_pu ≠ 0 then r.kVx_MRV / r.kVx_pu else 0)
      else p.sum_insured) := by
  unfold rowCalc at h
  obtain ⟨Axn, hA, h⟩ := bind_ok_inv h
  obtain ⟨axn, ha1, h⟩ := bind_ok_inv h
  obtain ⟨axt, ha2, h⟩ := bind_ok_inv h
  simp only at h
  obtain ⟨mr, ha3, h⟩ := bind_ok_inv h
  obtain ⟨mrr, ha4, h⟩ := bind_ok_inv h
  have h5 := ok_inj h
  subst h5
  exact ⟨rfl, rfl, rfl, rfl, rfl⟩

theorem calc_progression_rows {ctx : Ctx} {p : PolicyInputs} {tf : TariffInputs}
    {lm : Limits} {pxt gap : ℚ} {max_k : ℕ} {rows : List Row}
    (h : calc_progression_values ctx p tf lm pxt gap max_k = .ok rows) :
    ∀ r ∈ rows, ∃ (k : ℕ) (ax_ratio ax5 dxxn : ℚ), k < max_k + 1 ∧
      rowCalc ctx p tf lm pxt gap ax_ratio ax5 dxxn k = .ok r := by
  unfold calc_progression_values at h
  obtain ⟨axt0, _, h⟩ := bind_ok_inv h
  obtain ⟨axn0, _, h⟩ := bind_ok_inv h
  obtain ⟨ratio, _, h⟩ := bind_ok_inv h
  obtain ⟨dxx, _, h⟩ := bind_ok_inv h
  obtain ⟨ax5, _, h⟩ := bind_ok_inv h
  obtain ⟨dxxn, _, h⟩ := bind_ok_inv h
  intro r hr
  obtain ⟨k, hk, hrk⟩ := buildList_ok_mem h r hr
  exact ⟨k, ratio, ax5, dxxn, hk, hrk⟩

/-- C6: in every produced progression row the surrender deduction lies
in `[0, 150]`; it is exactly `0` when `k > n` or the flex-phase flag is
set, and otherwise it is `0.01 * (sumInsured - kDRx_pp)` clamped to
`[50, 150]`. -/
theorem claimC6_surrender_bounds (ctx : Ctx) (p : PolicyInputs) (tf : TariffInputs)
    (lm : Limits) (pxt gap : ℚ) (max_k : ℕ) (rows : List Row)
    (h : calc_progression_values ctx p tf lm pxt gap max_k = .ok rows) :
    ∀ r ∈ rows, 0 ≤ r.Surrender_deduction ∧ r.Surrender_deduction ≤ 150 ∧
      ((p.n < r.k ∨ r.Flex_phase = 1) → r.Surrender_deduction = 0) ∧
      (¬(p.n < r.k ∨ r.Flex_phase = 1) →
        r.Surrender_deduction =
          min 150 (max 50 ((1 / 100) * (p.sum_insured - r.kDRx_pp)))) := by
  intro r hr
  obtain ⟨k, ratio, ax5, dxxn, hk, hrow⟩ := calc_progression_rows h r hr
  obtain ⟨hkk, hdrx, hflex, hded, hpu⟩ := rowCalc_ok_inv hrow
  rw [← hkk] at hded
  have hmin0 : (0 : ℚ) ≤ min 150 (max 50 ((1 / 100) * (p.sum_insured - r.kDRx_pp))) := by
    apply le_min (by norm_num)
    exact le_trans (by norm_num : (0 : ℚ) ≤ 50) (le_max_left _ _)
  have hmin150 : min (150 : ℚ) (max 50 ((1 / 100) * (p.sum_insured - r.kDRx_pp))) ≤ 150 :=
    min_le_left _ _
  refine ⟨?_, ?_, ?_, ?_⟩
  · rw [hded]
    by_cases hc : p.n < r.k ∨ r.Flex_phase = 1
    · rw [if_pos hc]
    · rw [if_neg hc]
      exact hmin0
  · rw [hded]
    by_cases hc : p.n < r.k ∨ r.Flex_phase = 1
    · rw [if_pos hc]
      norm_num
    · rw [if_neg hc]
      exact hmin150
  · intro hc
    rw [hded, if_pos hc]
  · intro hc
    rw [hded, if_neg hc]

/-- C7: in every produced progression row the paid-up sum insured is `0`
for `k > n`, is `kVx_MRV / kVx_pu` for `k < t` with `kVx_pu ≠ 0`, is the
original sum insured for `t ≤ k ≤ n`, and collapses to `0` (instead of
failing) when `k < t` with `kVx_pu = 0`. -/
theorem claimC7_paid_up (ctx : Ctx) (p : PolicyInputs) (tf : TariffInputs)
    (lm : Limits) (pxt gap : ℚ) (max_k : ℕ) (rows : List Row)
    (h : calc_progression_values ctx p tf lm pxt gap max_k = .ok rows) :
    ∀ r ∈ rows,
      (p.n < r.k → r.SumInsured_pu = 0) ∧
      (¬p.n < r.k → r.k < p.t → r.kVx_pu ≠ 0 →
        r.SumInsured_pu = r.kVx_MRV / r.kVx_pu) ∧
      (¬p.n < r.k → r.k < p.t → r.kVx_pu = 0 → r.SumInsured_pu = 0) ∧
      (¬p.n < r.k → ¬r.k < p.t → r.SumInsured_pu = p.sum_insured) := by
  intro r hr
  obtain ⟨k, ratio, ax5, dxxn, hk, hrow⟩ := calc_progression_rows h r hr
  obtain ⟨hkk, hdrx, hflex, hded, hpu⟩ := rowCalc_ok_inv hrow
  rw [← hkk] at hpu
  refine ⟨?_, ?_, ?_, ?_⟩
  · intro hc
    rw [hpu, if_pos hc]
  · intro hc1 hc2 hc3
    rw [hpu, if_neg hc1, if_pos hc2, if_pos hc3]
  · intro hc1 hc2 hc3
    rw [hpu, if_neg hc1, if_pos hc2, if_neg (by simp [hc3])]
  · intro hc1 hc2
    rw [hpu, if_neg hc1, if_neg hc2]

theorem getD_replicate {n i : ℕ} {a : ℚ} (h : i < n) :
    (List.replicate n a).getD i 0 = a := by
  rw [List.getD_eq_getElem?_getD, List.getElem?_replicate, if_pos h]
  rfl

theorem getD_replicate_any (n i : ℕ) : (List.replicate n (0 : ℚ)).getD i 0 = 0 := by
  rw [List.getD_eq_getElem?_getD, List.getElem?_replicate]
  by_cases hi : i < n
  · rw [if_pos hi]
    rfl
  · rw [if_neg hi]
    rfl

theorem ctxW_qx (a : ℤ) : Act_qx ctxW a ("M") ("DAV1994_T") =
    if a < 0 ∨ 6 ≤ a then .error .ageOutOfRange else .ok 0 := by
  have h1 : normSex ("M") = "M" := by decide
  have h2 : pyUpper (pyStrip ("DAV1994_T")) = "DAV1994_T" := by decide
  have h3 : ctxW.tables ("DAV1994_T" ++ "_" ++ "M") = some (List.replicate 6 0) := by
    simp [ctxW, zeroTable]
  simp only [Act_qx, h1, h2, h3]
  simp only [true_or, if_true, List.length_replicate]
  by_cases hc : a < 0 ∨ (6 : ℤ) ≤ a
  · rw [if_pos (by exact_mod_cast hc), if_pos hc]
  · rw [if_neg (by exact_mod_cast hc), if_neg hc, getD_replicate_any]

theorem ctxW_lx : ∀ i : ℕ, i ≤ 5 → lxVal ctxW ("M") ("DAV1994_T") i = .ok 1000000 := by
  intro i
  induction i with
  | zero => exact fun _ => rfl
  | succ i ih =>
    intro hi
    have hq : Act_qx ctxW (i : ℤ) ("M") ("DAV1994_T") = .ok 0 := by
      rw [ctxW_qx, if_neg (by omega)]
    show lxVal ctxW ("M") ("DAV1994_T") (i + 1) = .ok 1000000
    unfold lxVal
    rw [ih (by omega), ok_bind, hq, ok_bind, pure_eq_ok, Except.ok.injEq]
    rw [excelRound_eval_int _ (show ((1000000 : ℚ) * (1 - 0)) = ((1000000 : ℤ) : ℚ)
      by norm_num)]
    norm_num

theorem ctxW_buildlx : ∀ n : ℕ, n ≤ 6 →
    buildList (lxVal ctxW ("M") ("DAV1994_T")) n = .ok (List.replicate n 1000000) := by
  intro n
  induction n with
  | zero => exact fun _ => rfl
  | succ n ih =>
    intro hn
    unfold buildList
    rw [ih (by omega), ok_bind, ctxW_lx n (by omega), ok_bind, pure_eq_ok,
      Except.ok.injEq, List.replicate_succ']

theorem ctxW_Vec_lx (L : ℤ) (h0 : 0 ≤ L) (h5 : L ≤ 5) :
    Vec_lx ctxW L ("M") ("DAV1994_T") = .ok (List.replicate (L.toNat + 1) 1000000) := by
  unfold Vec_lx
  rw [limitOf_idem h0, if_neg (by omega)]
  exact ctxW_buildlx (L.toNat + 1) (by omega)

theorem ctxW_Vec_Dx (L : ℤ) (h0 : 0 ≤ L) (h5 : L ≤ 5) :
    Vec_Dx ctxW L ("M") ("DAV1994_T") 0 =
      .ok (List.replicate (L.toNat + 1) 1000000) := by
  unfold Vec_Dx
  rw [limitOf_idem h0, if_neg (by omega)]
  rw [pyDiv_ok (by norm_num : (1 : ℚ) + 0 ≠ 0), ok_bind]
  rw [ctxW_Vec_lx L h0 h5, ok_bind, pure_eq_ok, Except.ok.injEq]
  apply List.eq_replicate_iff.mpr
  refine ⟨by simp, ?_⟩
  intro b hb
  obtain ⟨idx, hidx, rfl⟩ := List.mem_map.mp hb
  have hidx2 : idx < L.toNat + 1 := List.mem_range.mp hidx
  rw [getD_replicate hidx2]
  rw [show ((1 : ℚ) / (1 + 0)) = 1 by norm_num, one_pow, mul_one]
  rw [excelRound_eval_int _ (show (1000000 : ℚ) = ((1000000 : ℤ) : ℚ) by norm_num)]

theorem ctxW_Act_Dx (Age : ℤ) (h0 : 0 ≤ Age) (h5 : Age ≤ 5) :
    Act_Dx ctxW Age ("M") ("DAV1994_T") 0 = .ok 1000000 := by
  unfold Act_Dx
  rw [ctxW_Vec_Dx Age h0 h5, ok_bind]
  unfold pyIndex pyIdx
  rw [if_neg (by omega : ¬Age < 0)]
  simp only [List.length_replicate]
  rw [if_pos (by omega)]
  rw [getD_replicate (by omega)]

theorem ctxW_Vec_DxM : Vec_Dx ctxW (-1) ("M") ("DAV1994_T") 0 =
    .ok (List.replicate 6 1000000) := by
  unfold Vec_Dx
  rw [show limitOf ctxW (-1) = (5 : ℤ) from rfl, if_neg (by norm_num)]
  rw [pyDiv_ok (by norm_num : (1 : ℚ) + 0 ≠ 0), ok_bind]
  rw [show ((5 : ℤ)).toNat = 5 from rfl]
  rw [ctxW_Vec_lx 5 (by norm_num) (by norm_num), ok_bind, pure_eq_ok, Except.ok.injEq]
  rw [show ((5 : ℤ)).toNat = 5 from rfl]
  apply List.eq_replicate_iff.mpr
  refine ⟨by simp, ?_⟩
  intro b hb
  obtain ⟨idx, hidx, rfl⟩ := List.mem_map.mp hb
  have hidx2 : idx < 5 + 1 := List.mem_range.mp hidx
  rw [getD_replicate hidx2]
  rw [show ((1 : ℚ) / (1 + 0)) = 1 by norm_num, one_pow, mul_one]
  rw [excelRound_eval_int _ (show (1000000 : ℚ) = ((1000000 : ℤ) : ℚ) by norm_num)]

theorem ctxW_back : ∀ j : ℕ, j ≤ 5 →
    backAux ctxW.ROUND_DX (List.replicate 6 1000000) 5 j = ((j : ℚ) + 1) * 1000000 := by
  intro j
  induction j with
  | zero =>
    intro _
    show (List.replicate 6 (1000000 : ℚ)).getD 5 0 = ((0 : ℚ) + 1) * 1000000
    rw [getD_replicate (by norm_num)]
    norm_num
  | succ j ih =>
    intro hj
    show excelRound ctxW.ROUND_DX (backAux ctxW.ROUND_DX (List.replicate 6 1000000) 5 j +
      (List.replicate 6 (1000000 : ℚ)).getD (5 - (j + 1)) 0) = (((j : ℕ) + 1 : ℕ) + 1 : ℚ) * 1000000
    rw [ih (by omega), getD_replicate (by omega)]
    rw [show (((j : ℚ)) + 1) * 1000000 + 1000000 = (((j : ℤ) + 2) * 1000000 : ℤ) by
      push_cast; ring]
    rw [excelRound_intCast]
    push_cast
    ring

theorem ctxW_Vec_Nx : Vec_Nx ctxW ("M") ("DAV1994_T") 0 =
    .ok [6000000, 5000000, 4000000, 3000000, 2000000, 1000000] := by
  unfold Vec_Nx
  rw [ctxW_Vec_DxM, ok_bind, pure_eq_ok, Except.ok.injEq]
  unfold backwardVec
  rw [show ctxW.MAX_AGE = 5 from rfl]
  have hA5 : backAux ctxW.ROUND_DX (List.replicate 6 1000000) 5 5 = 6000000 := by
    rw [ctxW_back 5 (le_refl _)]
    norm_num
  have hA4 : backAux ctxW.ROUND_DX (List.replicate 6 1000000) 5 4 = 5000000 := by
    rw [ctxW_back 4 (by norm_num)]
    norm_num
  have hA3 : backAux ctxW.ROUND_DX (List.replicate 6 1000000) 5 3 = 4000000 := by
    rw [ctxW_back 3 (by norm_num)]
    norm_num
  have hA2 : backAux ctxW.ROUND_DX (List.replicate 6 1000000) 5 2 = 3000000 := by
    rw [ctxW_back 2 (by norm_num)]
    norm_num
  have hA1 : backAux ctxW.ROUND_DX (List.replicate 6 1000000) 5 1 = 2000000 := by
    rw [ctxW_back 1 (by norm_num)]
    norm_num
  have hA0 : backAux ctxW.ROUND_DX (List.replicate 6 1000000) 5 0 = 1000000 := by
    rw [ctxW_back 0 (by norm_num)]
    norm_num
  norm_num [List.range_succ, hA5, hA4, hA3, hA2, hA1, hA0]

theorem ctxW_Act_Nx0 : Act_Nx ctxW 0 ("M") ("DAV1994_T") 0 = .ok 6000000 := by
  unfold Act_Nx
  rw [ctxW_Vec_Nx, ok_bind]
  simp [pyIndex, pyIdx]

theorem ctxW_Act_Nx1 : Act_Nx ctxW 1 ("M") ("DAV1994_T") 0 = .ok 5000000 := by
  unfold Act_Nx
  rw [ctxW_Vec_Nx, ok_bind]
  simp [pyIndex, pyIdx]

theorem ctxW_Act_Nx2 : Act_Nx ctxW 2 ("M") ("DAV1994_T") 0 = .ok 4000000 := by
  unfold Act_Nx
  rw [ctxW_Vec_Nx, ok_bind]
  simp [pyIndex, pyIdx]

theorem ctxW_Act_Nx5 : Act_Nx ctxW 5 ("M") ("DAV1994_T") 0 = .ok 1000000 := by
  unfold Act_Nx
  rw [ctxW_Vec_Nx, ok_bind]
  simp [pyIndex, pyIdx]

theorem ctxW_Vec_tx5 : Vec_tx ctxW 5 ("M") ("DAV1994_T") = .ok (List.replicate 6 0) := by
  unfold Vec_tx
  rw [limitOf_idem (by norm_num), if_neg (by norm_num)]
  rw [ctxW_Vec_lx 5 (by norm_num) (by norm_num), ok_bind, pure_eq_ok, Except.ok.injEq]
  rw [show ((5 : ℤ)).toNat = 5 from rfl]
  apply List.eq_replicate_iff.mpr
  refine ⟨by simp, ?_⟩
  intro b hb
  obtain ⟨idx, hidx, rfl⟩ := List.mem_map.mp hb
  have hidx2 : idx < 5 + 1 := List.mem_range.mp hidx
  by_cases hlt : idx < 5
  · rw [if_pos hlt, getD_replicate (by omega), getD_replicate (by omega)]
    rw [excelRound_eval_int _ (show ((1000000 : ℚ) - 1000000) = ((0 : ℤ) : ℚ) by norm_num)]
    norm_num
  · rw [if_neg hlt]

theorem ctxW_Vec_Cx : Vec_Cx ctxW (-1) ("M") ("DAV1994_T") 0 =
    .ok (List.replicate 6 0) := by
  unfold Vec_Cx
  rw [show limitOf ctxW (-1) = (5 : ℤ) from rfl, if_neg (by norm_num)]
  rw [pyDiv_ok (by norm_num : (1 : ℚ) + 0 ≠ 0), ok_bind]
  rw [ctxW_Vec_tx5, ok_bind, pure_eq_ok, Except.ok.injEq]
  rw [show ((5 : ℤ)).toNat = 5 from rfl]
  apply List.eq_replicate_iff.mpr
  refine ⟨by simp, ?_⟩
  intro b hb
  obtain ⟨idx, hidx, rfl⟩ := List.mem_map.mp hb
  by_cases hlt : idx < 5
  · rw [if_pos hlt, getD_replicate (by omega)]
    rw [show ((1 : ℚ) / (1 + 0)) = 1 by norm_num, one_pow, zero_mul]
    rw [excelRound_eval_int _ (show (0 : ℚ) = ((0 : ℤ) : ℚ) by norm_num)]
  · rw [if_neg hlt]

theorem ctxW_Vec_Mx : Vec_Mx ctxW ("M") ("DAV1994_T") 0 = .ok (List.replicate 6 0) := by
  unfold Vec_Mx
  rw [ctxW_Vec_Cx, ok_bind, pure_eq_ok, Except.ok.injEq]
  have hz : ∀ j : ℕ, backAux ctxW.ROUND_MX (List.replicate 6 0) 5 j = 0 := by
    intro j
    induction j with
    | zero => exact getD_replicate_any 6 5
    | succ j ih =>
      show excelRound ctxW.ROUND_MX (backAux ctxW.ROUND_MX (List.replicate 6 0) 5 j +
        (List.replicate 6 (0 : ℚ)).getD (5 - (j + 1)) 0) = 0
      rw [ih, getD_replicate_any]
      rw [excelRound_eval_int _ (show ((0 : ℚ) + 0) = ((0 : ℤ) : ℚ) by norm_num)]
      norm_num
  unfold backwardVec
  rw [show ctxW.MAX_AGE = 5 from rfl]
  apply List.eq_replicate_iff.mpr
  refine ⟨by simp, ?_⟩
  intro b hb
  obtain ⟨idx, hidx, rfl⟩ := List.mem_map.mp hb
  exact hz (5 - idx)

theorem ctxW_Act_Mx (Age : ℤ) (h0 : 0 ≤ Age) (h5 : Age ≤ 5) :
    Act_Mx ctxW Age ("M") ("DAV1994_T") 0 = .ok 0 := by
  unfold Act_Mx
  rw [ctxW_Vec_Mx, ok_bind]
  unfold pyIndex pyIdx
  rw [if_neg (by omega : ¬Age < 0)]
  simp only [List.length_replicate]
  rw [if_pos (by omega)]
  rw [getD_replicate_any]

theorem ctxW_nGrAx (Age n2 : ℤ) (h0 : 0 ≤ Age) (h5 : Age ≤ 5) (hn0 : 0 ≤ Age + n2)
    (hn5 : Age + n2 ≤ 5) :
    act_nGrAx ctxW Age n2 ("M") ("DAV1994_T") 0 = .ok 0 := by
  unfold act_nGrAx
  rw [ctxW_Act_Mx Age h0 h5, ok_bind]
  rw [ctxW_Act_Mx (Age + n2) hn0 hn5, ok_bind]
  rw [ctxW_Act_Dx Age h0 h5, ok_bind]
  rw [pyDiv_ok (by norm_num : (1000000 : ℚ) ≠ 0)]
  norm_num

theorem ctxW_axn (Age n2 : ℤ) (h0 : 0 ≤ Age) (h5 : Age ≤ 5) (hn0 : 0 ≤ Age + n2)
    (hn5 : Age + n2 ≤ 5) {nxa nxb : ℚ}
    (hna : Act_Nx ctxW Age ("M") ("DAV1994_T") 0 = .ok nxa)
    (hnb : Act_Nx ctxW (Age + n2) ("M") ("DAV1994_T") 0 = .ok nxb) :
    Act_axn_k ctxW Age n2 ("M") ("DAV1994_T") 0 1 = .ok ((nxa - nxb) / 1000000) := by
  unfold Act_axn_k
  rw [if_pos (by norm_num : (0 : ℤ) < 1)]
  rw [ctxW_Act_Dx Age h0 h5, ok_bind]
  rw [ctxW_Act_Dx (Age + n2) hn0 hn5, ok_bind]
  rw [hna, ok_bind, hnb, ok_bind]
  rw [pyDiv_ok (by norm_num : (1000000 : ℚ) ≠ 0), ok_bind]
  rw [DT_one, ok_bind]
  rw [pyDiv_ok (by norm_num : (1000000 : ℚ) ≠ 0), ok_bind]
  rw [pure_eq_ok, Except.ok.injEq]
  ring

theorem ctxW_axn01 : Act_axn_k ctxW 0 1 ("M") ("DAV1994_T") 0 1 = .ok 1 := by
  have h := ctxW_axn 0 1 (by norm_num) (by norm_num) (by norm_num) (by norm_num)
    ctxW_Act_Nx0 ctxW_Act_Nx1
  norm_num at h
  exact h

theorem ctxW_axn05 : Act_axn_k ctxW 0 5 ("M") ("DAV1994_T") 0 1 = .ok 5 := by
  have h := ctxW_axn 0 5 (by norm_num) (by norm_num) (by norm_num) (by norm_num)
    ctxW_Act_Nx0 ctxW_Act_Nx5
  norm_num at h
  exact h

theorem ctxW_axn10 : Act_axn_k ctxW 1 0 ("M") ("DAV1994_T") 0 1 = .ok 0 := by
  have h := ctxW_axn 1 0 (by norm_num) (by norm_num) (by norm_num) (by norm_num)
    ctxW_Act_Nx1 ctxW_Act_Nx1
  norm_num at h
  exact h

theorem ctxW_axn14 : Act_axn_k ctxW 1 4 ("M") ("DAV1994_T") 0 1 = .ok 4 := by
  have h := ctxW_axn 1 4 (by norm_num) (by norm_num) (by norm_num) (by norm_num)
    ctxW_Act_Nx1 ctxW_Act_Nx5
  norm_num at h
  exact h

theorem ctxW_axn20 : Act_axn_k ctxW 2 0 ("M") ("DAV1994_T") 0 1 = .ok 0 := by
  have h := ctxW_axn 2 0 (by norm_num) (by norm_num) (by norm_num) (by norm_num)
    ctxW_Act_Nx2 ctxW_Act_Nx2
  norm_num at h
  exact h

theorem ctxW_axn23 : Act_axn_k ctxW 2 3 ("M") ("DAV1994_T") 0 1 = .ok 3 := by
  have h := ctxW_axn 2 3 (by norm_num) (by norm_num) (by norm_num) (by norm_num)
    ctxW_Act_Nx2 ctxW_Act_Nx5
  norm_num at h
  exact h

theorem ctxW_rowAxn0 : rowAxn ctxW pW tfT 1000000 0 = .ok 1 := by
  unfold rowAxn
  rw [if_pos (by norm_num [pW] : (((0 : ℕ) : ℤ)) ≤ pW.n)]
  rw [show pW.x + ((0 : ℕ) : ℤ) = 0 from by norm_num [pW]]
  rw [show pW.sex = "M" from rfl]
  rw [show tfT.mortality_table = "DAV1994_T" from rfl]
  rw [show tfT.interest_rate = (0 : ℚ) from rfl]
  rw [ctxW_Act_Dx 0 (by norm_num) (by norm_num), ok_bind]
  rw [show max0 (pW.n - ((0 : ℕ) : ℤ)) = 1 from by norm_num [pW, max0]]
  rw [ctxW_nGrAx 0 1 (by norm_num) (by norm_num) (by norm_num) (by norm_num), ok_bind]
  rw [pyDiv_ok (by norm_num : (1000000 : ℚ) ≠ 0), ok_bind]
  rw [pure_eq_ok, Except.ok.injEq]
  norm_num

theorem ctxW_rowAxn1 : rowAxn ctxW pW tfT 1000000 1 = .ok 1 := by
  unfold rowAxn
  rw [if_pos (by norm_num [pW] : (((1 : ℕ) : ℤ)) ≤ pW.n)]
  rw [show pW.x + ((1 : ℕ) : ℤ) = 1 from by norm_num [pW]]
  rw [show pW.sex = "M" from rfl]
  rw [show tfT.mortality_table = "DAV1994_T" from rfl]
  rw [show tfT.interest_rate = (0 : ℚ) from rfl]
  rw [ctxW_Act_Dx 1 (by norm_num) (by norm_num), ok_bind]
  rw [show max0 (pW.n - ((1 : ℕ) : ℤ)) = 0 from by norm_num [pW, max0]]
  rw [ctxW_nGrAx 1 0 (by norm_num) (by norm_num) (by norm_num) (by norm_num), ok_bind]
  rw [pyDiv_ok (by norm_num : (1000000 : ℚ) ≠ 0), ok_bind]
  rw [pure_eq_ok, Except.ok.injEq]
  norm_num

theorem ctxW_rowAxn2 : rowAxn ctxW pW tfT 1000000 2 = .ok 0 := by
  unfold rowAxn
  rw [if_neg (by norm_num [pW] : ¬(((2 : ℕ) : ℤ)) ≤ pW.n)]
  rfl

theorem ctxW_row0 : rowCalc ctxW pW tfT lmW 1 100 1 5 1000000 0 =
    .ok ⟨0, 1, 1, 1, 0, 0, 1, 0, 0, 100, 0, 0⟩ := by
  unfold rowCalc
  rw [ctxW_rowAxn0, ok_bind]
  rw [show pW.x + ((0 : ℕ) : ℤ) = 0 from by norm_num [pW]]
  rw [show pW.sex = "M" from rfl]
  rw [show tfT.mortality_table = "DAV1994_T" from rfl]
  rw [show tfT.interest_rate = (0 : ℚ) from rfl]
  rw [show max0 (pW.n - ((0 : ℕ) : ℤ)) = 1 from by norm_num [pW, max0]]
  rw [show max0 (pW.t - ((0 : ℕ) : ℤ)) = 1 from by norm_num [pW, max0]]
  rw [show max0 (5 - ((0 : ℕ) : ℤ)) = 5 from by norm_num [max0]]
  rw [ctxW_axn01, ok_bind, ok_bind]
  rw [ctxW_axn05, ok_bind]
  rw [show pyDiv (5 : ℚ) 5 = .ok 1 from by
    rw [pyDiv_ok (by norm_num : (5 : ℚ) ≠ 0)]; norm_num, ok_bind]
  rw [pure_eq_ok, Except.ok.injEq, Row.mk.injEq]
  norm_num [pW, tfT, lmW, min_def, max_def]

theorem ctxW_row1 : rowCalc ctxW pW tfT lmW 1 100 1 5 1000000 1 =
    .ok ⟨1, 1, 0, 0, 1, 10000, 1, 10000, 0, 50, 9950, 10000⟩ := by
  unfold rowCalc
  rw [ctxW_rowAxn1, ok_bind]
  rw [show pW.x + ((1 : ℕ) : ℤ) = 1 from by norm_num [pW]]
  rw [show pW.sex = "M" from rfl]
  rw [show tfT.mortality_table = "DAV1994_T" from rfl]
  rw [show tfT.interest_rate = (0 : ℚ) from rfl]
  rw [show max0 (pW.n - ((1 : ℕ) : ℤ)) = 0 from by norm_num [pW, max0]]
  rw [show max0 (pW.t - ((1 : ℕ) : ℤ)) = 0 from by norm_num [pW, max0]]
  rw [show max0 (5 - ((1 : ℕ) : ℤ)) = 4 from by norm_num [max0]]
  rw [ctxW_axn10, ok_bind, ok_bind]
  rw [ctxW_axn14, ok_bind]
  rw [show pyDiv (4 : ℚ) 5 = .ok (4 / 5) from pyDiv_ok (by norm_num), ok_bind]
  rw [pure_eq_ok, Except.ok.injEq, Row.mk.injEq]
  norm_num [pW, tfT, lmW, min_def, max_def]

theorem ctxW_row2 : rowCalc ctxW pW tfT lmW 1 100 1 5 1000000 2 =
    .ok ⟨2, 0, 0, 0, 0, 0, 0, 0, 0, 0, 0, 0⟩ := by
  unfold rowCalc
  rw [ctxW_rowAxn2, ok_bind]
  rw [show pW.x + ((2 : ℕ) : ℤ) = 2 from by norm_num [pW]]
  rw [show pW.sex = "M" from rfl]
  rw [show tfT.mortality_table = "DAV1994_T" from rfl]
  rw [show tfT.interest_rate = (0 : ℚ) from rfl]
  rw [show max0 (pW.n - ((2 : ℕ) : ℤ)) = 0 from by norm_num [pW, max0]]
  rw [show max0 (pW.t - ((2 : ℕ) : ℤ)) = 0 from by norm_num [pW, max0]]
  rw [show max0 (5 - ((2 : ℕ) : ℤ)) = 3 from by norm_num [max0]]
  rw [ctxW_axn20, ok_bind, ok_bind]
  rw [ctxW_axn23, ok_bind]
  rw [show pyDiv (3 : ℚ) 5 = .ok (3 / 5) from pyDiv_ok (by norm_num), ok_bind]
  rw [pure_eq_ok, Except.ok.injEq, Row.mk.injEq]
  norm_num [pW, tfT, lmW, min_def, max_def]

theorem ctxW_buildRows1 : buildList (rowCalc ctxW pW tfT lmW 1 100 1 5 1000000) 1 =
    .ok [⟨0, 1, 1, 1, 0, 0, 1, 0, 0, 100, 0, 0⟩] := by
  have h1 : buildList (rowCalc ctxW pW tfT lmW 1 100 1 5 1000000) 1 = (do
      let xs ← buildList (rowCalc ctxW pW tfT lmW 1 100 1 5 1000000) 0
      let x ← rowCalc ctxW pW tfT lmW 1 100 1 5 1000000 0
      pure (xs ++ [x])) := rfl
  rw [h1, show buildList (rowCalc ctxW pW tfT lmW 1 100 1 5 1000000) 0 =
    (.ok [] : Except Err (List Row)) from rfl, ok_bind, ctxW_row0, ok_bind, pure_eq_ok,
    List.nil_append]

theorem ctxW_buildRows2 : buildList (rowCalc ctxW pW tfT lmW 1 100 1 5 1000000) 2 =
    .ok [⟨0, 1, 1, 1, 0, 0, 1, 0, 0, 100, 0, 0⟩,
      ⟨1, 1, 0, 0, 1, 10000, 1, 10000, 0, 50, 9950, 10000⟩] := by
  have h1 : buildList (rowCalc ctxW pW tfT lmW 1 100 1 5 1000000) 2 = (do
      let xs ← buildList (rowCalc ctxW pW tfT lmW 1 100 1 5 1000000) 1
      let x ← rowCalc ctxW pW tfT lmW 1 100 1 5 1000000 1
      pure (xs ++ [x])) := rfl
  rw [h1, ctxW_buildRows1, ok_bind, ctxW_row1, ok_bind, pure_eq_ok]
  rfl

theorem ctxW_buildRows3 : buildList (rowCalc ctxW pW tfT lmW 1 100 1 5 1000000) 3 =
    .ok [⟨0, 1, 1, 1, 0, 0, 1, 0, 0, 100, 0, 0⟩,
      ⟨1, 1, 0, 0, 1, 10000, 1, 10000, 0, 50, 9950, 10000⟩,
      ⟨2, 0, 0, 0, 0, 0, 0, 0, 0, 0, 0, 0⟩] := by
  have h1 : buildList (rowCalc ctxW pW tfT lmW 1 100 1 5 1000000) 3 = (do
      let xs ← buildList (rowCalc ctxW pW tfT lmW 1 100 1 5 1000000) 2
      let x ← rowCalc ctxW pW tfT lmW 1 100 1 5 1000000 2
      pure (xs ++ [x])) := rfl
  rw [h1, ctxW_buildRows2, ok_bind, ctxW_row2, ok_bind, pure_eq_ok]
  rfl

theorem ctxW_progression : calc_progression_values ctxW pW tfT lmW 1 100 2 =
    .ok [⟨0, 1, 1, 1, 0, 0, 1, 0, 0, 100, 0, 0⟩,
      ⟨1, 1, 0, 0, 1, 10000, 1, 10000, 0, 50, 9950, 10000⟩,
      ⟨2, 0, 0, 0, 0, 0, 0, 0, 0, 0, 0, 0⟩] := by
  unfold calc_progression_values
  rw [show pW.x = (0 : ℤ) from rfl, show pW.n = (1 : ℤ) from rfl,
    show pW.t = (1 : ℤ) from rfl, show pW.sex = "M" from rfl,
    show tfT.mortality_table = "DAV1994_T" from rfl,
    show tfT.interest_rate = (0 : ℚ) from rfl]
  rw [ctxW_axn01, ok_bind, ok_bind]
  rw [show pyDiv (1 : ℚ) 1 = .ok 1 from by
    rw [pyDiv_ok (by norm_num : (1 : ℚ) ≠ 0)]; norm_num, ok_bind]
  rw [ctxW_Act_Dx 0 (by norm_num) (by norm_num), ok_bind]
  rw [ctxW_axn05, ok_bind]
  rw [show ((0 : ℤ) + 1) = 1 from by norm_num]
  rw [ctxW_Act_Dx 1 (by norm_num) (by norm_num), ok_bind]
  exact ctxW_buildRows3

/-- C6 witness: the concrete three-row progression run in `ctxW`
(`k = 0, 1, 2` with `n = 1`): deductions `100`, `50` and `0` all lie in
`[0, 150]`, the `k > n` row has deduction `0`, and the in-force rows
carry the clamped value. -/
theorem claimC6_witness :
    ∃ rows, calc_progression_values ctxW pW tfT lmW 1 100 2 = .ok rows ∧
      ∀ r ∈ rows, 0 ≤ r.Surrender_deduction ∧ r.Surrender_deduction ≤ 150 ∧
        ((pW.n < r.k ∨ r.Flex_phase = 1) → r.Surrender_deduction = 0) ∧
        (¬(pW.n < r.k ∨ r.Flex_phase = 1) →
          r.Surrender_deduction =
            min 150 (max 50 ((1 / 100) * (pW.sum_insured - r.kDRx_pp)))) :=
  ⟨_, ctxW_progression,
    claimC6_surrender_bounds ctxW pW tfT lmW 1 100 2 _ ctxW_progression⟩

/-- C7 witness: the same three-row run: the `k = 0` row pays
`kVx_MRV / kVx_pu`, the `k = 1 = t` row pays the original sum insured,
and the `k = 2 > n` row pays `0`. -/
theorem claimC7_witness :
    ∃ rows, calc_progression_values ctxW pW tfT lmW 1 100 2 = .ok rows ∧
      ∀ r ∈ rows,
        (pW.n < r.k → r.SumInsured_pu = 0) ∧
        (¬pW.n < r.k → r.k < pW.t → r.kVx_pu ≠ 0 →
          r.SumInsured_pu = r.kVx_MRV / r.kVx_pu) ∧
        (¬pW.n < r.k → r.k < pW.t → r.kVx_pu = 0 → r.SumInsured_pu = 0) ∧
        (¬pW.n < r.k → ¬r.k < pW.t → r.SumInsured_pu = pW.sum_insured) :=
  ⟨_, ctxW_progression,
    claimC7_paid_up ctxW pW tfT lmW 1 100 2 _ ctxW_progression⟩

end PortXL
